import Mathlib

/-!
# LinuxBox_Finder: the GATT command/response protocol of `hubv3-gatt-server`

A shallow embedding of `util.c`, `wifi-manager.c` and the characteristic
callbacks of `main.c`.

Conventions of the embedding.

* A C string (`const char *`) is the list of its characters before the
  terminating NUL.  A pointer into a string is the suffix that starts at the
  pointed-to character, so `p - q` is `q.length - p.length` for two pointers
  into the same string.
* A `char` array is the list of its bytes (NULs included); it is read as a
  string through `cstr`.
* Everything outside the process (the shell commands run through `popen` and
  `system`, the `ioctl` queries, `fork`) is answered by a `World`, a
  deterministic oracle that sees the history of events so far.  The history
  is the `trace`; the calls into the BLE library that deliver a response
  (`binc_application_notify`, `binc_application_set_char_value`) are events
  of the same trace, and so is the entry into each `wifi_manager_*`
  operation, recorded with its arguments.  Logging is not part of the trace.
-/

namespace LinuxBoxFinder

/-! ## C string primitives -/

/-- The terminating byte of a C string. -/
def NUL : Char := Char.ofNat 0

/-- Reading a `char` array as a C string: the bytes before the first NUL. -/
def cstr (buf : List Char) : List Char :=
  buf.takeWhile (fun c => c != NUL)

/-- The libc `strchr(s, c)` for `c` other than NUL: the suffix of `s` that starts at the
first `c`, or `none` (NULL). -/
def strchr : List Char → Char → Option (List Char)
  | [], _ => none
  | x :: xs, c => if x = c then some (x :: xs) else strchr xs c

/-- The libc `strstr(haystack, needle)`: the suffix of `haystack` that starts
at the first occurrence of `needle`, or `none` (NULL). -/
def strstr : List Char → List Char → Option (List Char)
  | [], needle => if needle = [] then some [] else none
  | x :: xs, needle =>
    if needle.isPrefixOf (x :: xs) then some (x :: xs) else strstr xs needle

/-- The libc `strcspn(s, "\n")`: the length of the part of `s` before the first
newline. -/
def strcspn_nl (s : List Char) : Nat :=
  (s.takeWhile (fun c => c != '\n')).length

/-- The libc `strncpy(dest, src, n)` on a destination array `dest`: `n` bytes are
written, the characters of `src` and then NUL padding when `src` is
shorter than `n`. -/
def strncpy (dest src : List Char) (n : Nat) : List Char :=
  (src.take n ++ List.replicate (n - src.length) NUL) ++ dest.drop n

/-- What `snprintf(buf, size, ...)` leaves in `buf` as a string, given the full
formatted text: at most `size - 1` characters. -/
def snprintf (size : Nat) (text : List Char) : List Char :=
  text.take (size - 1)

/-- A zero-initialised array, `char buf[size] = {0}`. -/
def zeroed (size : Nat) : List Char :=
  List.replicate size NUL

/-! ## util.c -/

/-- The function `find_key_value(json, key, valueBuffer, bufferSize)` of util.c.
The first component is the returned pointer (`some` of the buffer it points
to, `none` for NULL), the second the contents of `valueBuffer` afterwards. -/
def find_key_value (json key valueBuffer : List Char) (bufferSize : Nat) :
    Option (List Char) × List Char :=
  match strstr json key with
  | none => (none, valueBuffer)
  | some keyPosition =>
    match strchr keyPosition ':' with
    | none => (none, valueBuffer)
    | some colonPosition =>
      match strchr colonPosition '"' with
      | none => (none, valueBuffer)
      | some startQuote =>
        match strchr (startQuote.drop 1) '"' with
        | none => (none, valueBuffer)
        | some endQuote =>
          if startQuote.length - endQuote.length - 1 < bufferSize then
            let copied := strncpy valueBuffer (startQuote.drop 1)
              (startQuote.length - endQuote.length - 1)
            let written := copied.set (startQuote.length - endQuote.length - 1) NUL
            (some written, written)
          else (none, valueBuffer)

/-! ## The outside world -/

/-- What the process does that is visible outside it, in order.  The four
`wifi_manager_*` events mark the entry into the WiFi manager operation of
that name with its arguments; the others are calls that leave the process. -/
inductive Event where
  | wifi_manager_configure (ssid password : List Char)
  | wifi_manager_get_status
  | wifi_manager_delete_networks
  | wifi_manager_execute_command (command : List Char)
  | popen (command : List Char)
  | system (command : List Char)
  | sleep (seconds : Nat)
  | ioctl_hwaddr (ifname : List Char)
  | ioctl_addr (ifname : List Char)
  | fork_reboot
  | notify (service_uuid char_uuid bytes : List Char)
  | set_char_value (service_uuid char_uuid bytes : List Char)
  deriving DecidableEq, Repr

/-- The answers of the operating system, each a function of the events so
far.  `popen` gives the bytes the command prints and the value of `pclose`,
or `none` when `popen` itself fails; `system` gives its return value;
`hwaddr` gives the six bytes of `ifr_hwaddr.sa_data` and `inet_ntoa` the text
of the interface address, or `none` when `socket` or `ioctl` fails. -/
structure World where
  popen : List Event → List Char → Option (List Char × Int)
  system : List Event → List Char → Int
  hwaddr : List Event → List Char → Option (List Nat)
  inet_ntoa : List Event → List Char → Option (List Char)

/-- The constant `IFNAMSIZ` of net/if.h. -/
def IFNAMSIZ : Nat := 16

/-- Two lower-case hexadecimal digits, the `%02x` of an `unsigned char`. -/
def hex2 (b : Nat) : List Char :=
  let digit (d : Nat) : Char :=
    if d < 10 then Char.ofNat (48 + d) else Char.ofNat (87 + d)
  [digit ((b % 256) / 16), digit ((b % 256) % 16)]

/-- The function `get_mac_address(ifname, mac_addr, mac_len)` of util.c: success
flag, the `mac_addr` array afterwards, and the trace. -/
def get_mac_address (w : World) (tr : List Event) (ifname mac_addr : List Char)
    (mac_len : Nat) : Bool × List Char × List Event :=
  if mac_len < 18 then (false, mac_addr, tr)
  else
    let name := ifname.take (IFNAMSIZ - 1)
    match w.hwaddr tr name with
    | none => (false, mac_addr, tr ++ [Event.ioctl_hwaddr name])
    | some d =>
      let text := hex2 (d.getD 0 0) ++ ':' :: hex2 (d.getD 1 0) ++ ':' :: hex2 (d.getD 2 0)
        ++ ':' :: hex2 (d.getD 3 0) ++ ':' :: hex2 (d.getD 4 0) ++ ':' :: hex2 (d.getD 5 0)
      let s := snprintf mac_len text
      (true, s ++ NUL :: mac_addr.drop (s.length + 1), tr ++ [Event.ioctl_hwaddr name])

/-- The function `get_ip_address(ifname, ip_addr, ip_len)` of util.c: success
flag, the `ip_addr` array afterwards, and the trace. -/
def get_ip_address (w : World) (tr : List Event) (ifname ip_addr : List Char)
    (ip_len : Nat) : Bool × List Char × List Event :=
  if ip_len < 16 then (false, ip_addr, tr)
  else
    let name := ifname.take (IFNAMSIZ - 1)
    match w.inet_ntoa tr name with
    | none => (false, ip_addr, tr ++ [Event.ioctl_addr name])
    | some a =>
      let s := snprintf ip_len (cstr a)
      (true, s ++ NUL :: ip_addr.drop (s.length + 1), tr ++ [Event.ioctl_addr name])

/-- The function `execute_command(command, output, output_size)` of util.c.
`output` is the string held by the output array before the call; the result
is the return value, the string held afterwards, and the trace. -/
def execute_command (w : World) (tr : List Event) (command output : List Char)
    (output_size : Nat) : Int × List Char × List Event :=
  if output_size = 0 then (-1, output, tr)
  else
    match w.popen tr command with
    | none => (-1, output, tr ++ [Event.popen command])
    | some (bytes, status) =>
      (status, cstr (bytes.take (output_size - 1)), tr ++ [Event.popen command])

/-! ## wifi-manager.c -/

/-- The macro `WIFI_INTERFACE`. -/
def WIFI_INTERFACE : List Char := "wlan0".toList

/-- The macro `MAX_COMMAND_LEN`. -/
def MAX_COMMAND_LEN : Nat := 512

/-- The macro `MAX_RESPONSE_LEN`. -/
def MAX_RESPONSE_LEN : Nat := 4096

/-- The static function `check_wifi_connected()`. -/
def check_wifi_connected (w : World) (tr : List Event) : Bool × List Event :=
  let command := "nmcli -t -f GENERAL.STATE device show wlan0".toList
  let r := execute_command w tr command [] MAX_RESPONSE_LEN
  (decide (r.1 = 0) && decide (r.2.1.length > 0)
    && (strstr r.2.1 "(connected)".toList).isSome, r.2.2)

/-- The polling loop of `wifi_manager_configure`, with `timeout` polls left:
0 after the first poll that finds the interface connected, -2 when the polls
are used up. -/
def wait_connected (w : World) : Nat → List Event → Int × List Event
  | 0, tr => (-2, tr)
  | timeout + 1, tr =>
    let c := check_wifi_connected w tr
    if c.1 then (0, c.2) else wait_connected w timeout (c.2 ++ [Event.sleep 1])

/-- The command that asks for the SSID of the active connection. -/
def active_ssid_command : List Char :=
  "nmcli -t -f active,ssid dev wifi | grep '^yes' | cut -d: -f2".toList

/-- The command that looks a saved profile up by name. -/
def profile_lookup_command (ssid : List Char) : List Char :=
  snprintf MAX_COMMAND_LEN
    ("nmcli -t --fields NAME connection show | grep -x '".toList ++ ssid ++ "'".toList)

/-- The command that deletes a saved profile by name. -/
def profile_delete_command (ssid : List Char) : List Char :=
  snprintf MAX_COMMAND_LEN ("nmcli connection delete id '".toList ++ ssid ++ "'".toList)

/-- The connect command: with a password clause for a secured network, without
one for an open network. -/
def connect_command (ssid password : List Char) : List Char :=
  if password.length > 0 then
    snprintf MAX_COMMAND_LEN ("nmcli device wifi connect '".toList ++ ssid
      ++ "' password '".toList ++ password ++ "'".toList)
  else
    snprintf MAX_COMMAND_LEN ("nmcli device wifi connect '".toList ++ ssid ++ "'".toList)

/-- The second half of `wifi_manager_configure`: the connect request and the
wait for the connection.  What the connect command prints only goes into a
log message, so the previous contents of `response` are not carried along. -/
def configure_connect (w : World) (tr : List Event) (ssid password : List Char) :
    Int × List Event :=
  let r := execute_command w tr (connect_command ssid password) [] MAX_RESPONSE_LEN
  if r.1 ≠ 0 then (-1, r.2.2) else wait_connected w 20 r.2.2

/-- The part of `wifi_manager_configure` after the check of the active
connection: the lookup of a saved profile, its deletion, and the connect
request.  `response` is the string the array `response` holds on entry. -/
def configure_profile (w : World) (tr : List Event) (ssid password response : List Char) :
    Int × List Event :=
  let found := execute_command w tr (profile_lookup_command ssid) response MAX_RESPONSE_LEN
  if found.1 = 0 ∧ found.2.1.length > 0 then
    let deleted := execute_command w found.2.2 (profile_delete_command ssid) found.2.1
      MAX_RESPONSE_LEN
    if deleted.1 ≠ 0 then (-1, deleted.2.2)
    else configure_connect w deleted.2.2 ssid password
  else configure_connect w found.2.2 ssid password

/-- The function `wifi_manager_configure(ssid, password)` (the live definition,
not the one under `#if 0`), for non-null `ssid` and `password`.  The local
array `response` starts out uninitialised; it is taken as empty here, and it is
only read after an `execute_command` that returned 0 and so wrote it. -/
def wifi_manager_configure (w : World) (tr : List Event) (ssid password : List Char) :
    Int × List Event :=
  let tr0 := tr ++ [Event.wifi_manager_configure ssid password]
  if ssid.length = 0 then (-1, tr0)
  else
    let active := execute_command w tr0 active_ssid_command [] MAX_RESPONSE_LEN
    if active.1 = 0 then
      let response := active.2.1.take (strcspn_nl active.2.1)
      if ssid = response then (0, active.2.2)
      else configure_profile w active.2.2 ssid password response
    else configure_profile w active.2.2 ssid password active.2.1

/-- The type `wifi_status_t`; the `char` arrays are kept byte by byte. -/
structure wifi_status_t where
  connected : Bool
  ssid : List Char
  ip_address : List Char
  mac_address : List Char
  error_message : List Char
  deriving DecidableEq, Repr

/-- The result of `memset(status, 0, sizeof(wifi_status_t))`. -/
def wifi_status_t.zero : wifi_status_t :=
  ⟨false, zeroed 64, zeroed 16, zeroed 18, zeroed 128⟩

/-- The function `wifi_manager_get_status(status)`; `none` is the NULL pointer.
The result is the return value, the structure pointed to afterwards, and the
trace. -/
def wifi_manager_get_status (w : World) (tr : List Event) (status : Option wifi_status_t) :
    Int × Option wifi_status_t × List Event :=
  let tr0 := tr ++ [Event.wifi_manager_get_status]
  match status with
  | none => (-1, none, tr0)
  | some _ =>
    let c := check_wifi_connected w tr0
    if c.1 then
      let command := snprintf MAX_COMMAND_LEN
        "nmcli -t -f active,ssid dev wifi | grep '^yes:' | cut -d ':' -f 2".toList
      let q := execute_command w c.2 command [] MAX_RESPONSE_LEN
      let ssid :=
        if q.1 = 0 ∧ q.2.1.length > 0 then
          strncpy wifi_status_t.zero.ssid (q.2.1.take (strcspn_nl q.2.1)) (64 - 1)
        else wifi_status_t.zero.ssid
      let ip := get_ip_address w q.2.2 WIFI_INTERFACE wifi_status_t.zero.ip_address 16
      let ip_address := if ip.1 then ip.2.1 else strncpy ip.2.1 "Unknown".toList (16 - 1)
      let mac := get_mac_address w ip.2.2 WIFI_INTERFACE wifi_status_t.zero.mac_address 18
      let mac_address := if mac.1 then mac.2.1 else strncpy mac.2.1 "Unknown".toList (18 - 1)
      (0, some ⟨true, ssid, ip_address, mac_address, wifi_status_t.zero.error_message⟩,
        mac.2.2)
    else
      (0, some { wifi_status_t.zero with
        error_message := strncpy wifi_status_t.zero.error_message
          "Not connected to any WiFi network".toList (128 - 1) }, c.2)

/-- One `fgets(line, size, fp)` on the unread part of a stream: the bytes
stored (a newline included) and the part still unread. -/
def fgets : Nat → List Char → List Char × List Char
  | 0, s => ([], s)
  | _ + 1, [] => ([], [])
  | k + 1, c :: s =>
    if c = '\n' then ([c], s) else ((c :: (fgets k s).1), (fgets k s).2)

/-- The `while (fgets(...) != NULL)` loop of `wifi_manager_delete_networks` on
the unread part of the output of the enumeration; `fuel` bounds the number
of iterations, and the length of the stream is always enough. -/
def delete_loop (w : World) : Nat → List Char → List Event → List Event
  | 0, _, tr => tr
  | _ + 1, [], tr => tr
  | fuel + 1, c :: s, tr =>
    let r := fgets (MAX_COMMAND_LEN - 1) (c :: s)
    let line := (cstr r.1).take (strcspn_nl (cstr r.1))
    if line.length > 0 then
      let command := snprintf 128 ("nmcli connection delete uuid ".toList ++ line)
      delete_loop w fuel r.2 (tr ++ [Event.system command])
    else delete_loop w fuel r.2 tr

/-- The function `wifi_manager_delete_networks()`. -/
def wifi_manager_delete_networks (w : World) (tr : List Event) : Int × List Event :=
  let tr0 := tr ++ [Event.wifi_manager_delete_networks]
  match w.popen tr0 "nmcli -t -f uuid connection".toList with
  | none => (1, tr0 ++ [Event.popen "nmcli -t -f uuid connection".toList])
  | some (bytes, _) =>
    (0, delete_loop w bytes.length bytes
      (tr0 ++ [Event.popen "nmcli -t -f uuid connection".toList]))

/-- The function `wifi_manager_execute_command(command, response, response_size)`
for non-null pointers: return value, the string held by `response`
afterwards, and the trace. -/
def wifi_manager_execute_command (w : World) (tr : List Event)
    (command response : List Char) (response_size : Nat) : Int × List Char × List Event :=
  let tr0 := tr ++ [Event.wifi_manager_execute_command command]
  if response_size = 0 then (-1, response, tr0)
  else if command = "restart_wifi".toList then
    execute_command w tr0
      (snprintf MAX_COMMAND_LEN "nmcli radio wifi off && sleep 1 && nmcli radio wifi on".toList)
      response response_size
  else if command = "restart_device".toList then
    (0, snprintf response_size "Device will restart in 5 seconds".toList,
      tr0 ++ [Event.fork_reboot])
  else if command = "factory_reset".toList then
    (0, snprintf response_size "Factory reset completed".toList,
      (wifi_manager_delete_networks w tr0).2)
  else
    (-1, snprintf response_size ("Unknown command: ".toList ++ command), tr0)

/-! ## main.c -/

/-- The macro `HUBV3_CONFIG_SERVICE_UUID`. -/
def HUBV3_CONFIG_SERVICE_UUID : List Char := "6e400000-0000-4e98-8024-bc5b71e0893e".toList

/-- The macro `HUBV3_WIFI_STATUS_CHAR_UUID`. -/
def HUBV3_WIFI_STATUS_CHAR_UUID : List Char := "6e400001-0000-4e98-8024-bc5b71e0893e".toList

/-- The macro `HUBV3_WIFI_CONFIG_CHAR_UUID`. -/
def HUBV3_WIFI_CONFIG_CHAR_UUID : List Char := "6e400002-0000-4e98-8024-bc5b71e0893e".toList

/-- The macro `HUBV3_SYSINFO_CHAR_UUID`. -/
def HUBV3_SYSINFO_CHAR_UUID : List Char := "6e400003-0000-4e98-8024-bc5b71e0893e".toList

/-- The macro `HUBV3_CUSTOM_COMMAND_CHAR_UUID`. -/
def HUBV3_CUSTOM_COMMAND_CHAR_UUID : List Char :=
  "6e400004-0000-4e98-8024-bc5b71e0893e".toList

/-- The mutable state of the process: the global `notify` and the events so
far. -/
structure State where
  notify : Bool
  trace : List Event
  deriving DecidableEq, Repr

/-- The state at start-up: `bool notify = true;` and nothing done yet. -/
def State.init : State := ⟨true, []⟩

/-- The function `local_server_write_char(app, service_uuid, char_uuid, result)`
for a non-null `result`. -/
def local_server_write_char (st : State) (service_uuid char_uuid result : List Char) :
    State :=
  if result.length = 0 then st
  else if st.notify then
    { st with trace := st.trace ++ [Event.notify service_uuid char_uuid result] }
  else
    { st with trace := st.trace ++ [Event.set_char_value service_uuid char_uuid result] }

/-- The string left in `json_status[128]` by the `snprintf` of a command ack, for
the two `%s` arguments. -/
def command_ack (command success : List Char) : List Char :=
  snprintf 128 ("\x7b\"command\":".toList ++ command ++ ",\"success\":\"".toList ++ success
    ++ "\",\x7d".toList)

/-- The string left in `json_status[512]` by the `snprintf` of a status payload,
for the four `%s` arguments. -/
def status_payload (connected ssid ip_address mac_address : List Char) : List Char :=
  snprintf 512 ("\x7b\"connected\":".toList ++ connected ++ ",\"ssid\":\"".toList ++ ssid
    ++ "\",\"ip_address\":\"".toList ++ ip_address ++ "\",\"mac_address\":\"".toList
    ++ mac_address ++ "\"\x7d".toList)

/-- The text of the C expression `result == 0 ? "true" : "false"`. -/
def success_text (result : Int) : List Char :=
  if result = 0 then "true".toList else "false".toList

/-- The WIFI_CONFIG branch of `on_local_char_updated` for a non-empty byte
array, whose bytes are read as the string `request`. -/
def wifi_config_write (w : World) (st : State) (service_uuid char_uuid request : List Char) :
    State :=
  let action := (find_key_value request "action".toList (zeroed 64) 64).2
  if cstr action = "connect".toList then
    let ssid := (find_key_value request "ssid".toList (zeroed 64) 64).2
    let password := (find_key_value request "password".toList (zeroed 64) 64).2
    let r : Int × List Event :=
      if (cstr ssid).length > 0 ∧ (cstr ssid).length > 0 then
        wifi_manager_configure w st.trace (cstr ssid) (cstr password)
      else (-1, st.trace)
    local_server_write_char { st with trace := r.2 } service_uuid char_uuid
      (command_ack (cstr action) (success_text r.1))
  else if cstr action = "delete_connects".toList then
    let r := wifi_manager_delete_networks w st.trace
    local_server_write_char { st with trace := r.2 } service_uuid char_uuid
      (command_ack (cstr action) "true".toList)
  else st

/-- The CUSTOM_COMMAND branch of `on_local_char_updated`. -/
def custom_command_write (w : World) (st : State) (service_uuid char_uuid : List Char)
    (byteArray : Option (List Char)) : State :=
  match byteArray with
  | some (c :: data) =>
    let request := cstr (c :: data)
    let r := wifi_manager_execute_command w st.trace request (cstr (zeroed 256)) 256
    local_server_write_char { st with trace := r.2.2 } service_uuid char_uuid
      (command_ack request (success_text r.1))
  | _ =>
    local_server_write_char st service_uuid char_uuid
      (command_ack "unknown".toList "true".toList)

/-- The callback `on_local_char_updated(application, service_uuid, char_uuid,
byteArray)`, called after a write.  `byteArray` is `none` for NULL and
otherwise the `len` bytes of `data`; the handler reads `data` as a C string,
and the byte after the last one is taken to be NUL. -/
def on_local_char_updated (w : World) (st : State) (service_uuid char_uuid : List Char)
    (byteArray : Option (List Char)) : State :=
  if service_uuid = HUBV3_CONFIG_SERVICE_UUID then
    if char_uuid = HUBV3_WIFI_CONFIG_CHAR_UUID then
      match byteArray with
      | some (c :: data) => wifi_config_write w st service_uuid char_uuid (cstr (c :: data))
      | _ => st
    else if char_uuid = HUBV3_CUSTOM_COMMAND_CHAR_UUID then
      custom_command_write w st service_uuid char_uuid byteArray
    else st
  else st

/-- The callback `on_local_char_start_notify(application, service_uuid,
char_uuid)`.  The local `status` is uninitialised when its address is passed
on; `wifi_manager_get_status` clears it before use. -/
def on_local_char_start_notify (w : World) (st : State) (service_uuid char_uuid : List Char) :
    State :=
  if service_uuid = HUBV3_CONFIG_SERVICE_UUID then
    if char_uuid = HUBV3_WIFI_STATUS_CHAR_UUID then
      let r := wifi_manager_get_status w st.trace (some wifi_status_t.zero)
      let status := r.2.1.getD wifi_status_t.zero
      let json_status :=
        if r.1 = 0 then
          status_payload (if status.connected then "true".toList else "false".toList)
            (cstr status.ssid) (cstr status.ip_address) (cstr status.mac_address)
        else
          status_payload "false".toList "none".toList "0.0.0.0".toList
            "00:00:00:00:00:00".toList
      local_server_write_char ⟨true, r.2.2⟩ service_uuid char_uuid json_status
    else if char_uuid = HUBV3_SYSINFO_CHAR_UUID then st
    else { st with notify := true }
  else st

/-- The callback `on_local_char_stop_notify(application, service_uuid,
char_uuid)`. -/
def on_local_char_stop_notify (st : State) (service_uuid _char_uuid : List Char) : State :=
  if service_uuid = HUBV3_CONFIG_SERVICE_UUID then { st with notify := false } else st

/-- The callback `on_local_char_read(application, address, service_uuid,
char_uuid)`: the returned error name (`none` for NULL, which reports success)
and the state.  `rejected` is the value of the macro `BLUEZ_ERROR_REJECTED`
of the BLE library. -/
def on_local_char_read (rejected : List Char) (st : State)
    (service_uuid char_uuid : List Char) : Option (List Char) × State :=
  if service_uuid = HUBV3_CONFIG_SERVICE_UUID ∧ char_uuid = HUBV3_SYSINFO_CHAR_UUID then
    (none, { st with trace := st.trace ++
      [Event.set_char_value service_uuid char_uuid ['\x7b', 'o', 'k', '\x7d']] })
  else (some rejected, st)

/-! ## Concrete worlds -/

/-- A world in which nothing works: every `popen`, `system`, `socket` and
`ioctl` fails. -/
def World.offline : World :=
  ⟨fun _ _ => none, fun _ _ => -1, fun _ _ => none, fun _ _ => none⟩

/-- A world whose shell commands all succeed and print `out`, and whose address
queries fail. -/
def World.printing (out : List Char) : World :=
  ⟨fun _ _ => some (out, 0), fun _ _ => 0, fun _ _ => none, fun _ _ => none⟩

/-- A world with no active connection and no saved profile in which a connect
request succeeds at once: the profile lookup finds nothing (`grep` exits with
1), every other command exits with 0, and from the connect request on the
state query prints `GENERAL.STATE:100 (connected)`. -/
def World.joining : World :=
  ⟨fun tr command =>
      if command = "nmcli -t -f GENERAL.STATE device show wlan0".toList then
        if tr.any (fun e => match e with
            | Event.popen c => "nmcli device wifi connect".toList.isPrefixOf c
            | _ => false) then
          some ("GENERAL.STATE:100 (connected)\n".toList, 0)
        else some ("GENERAL.STATE:30 (disconnected)\n".toList, 0)
      else if "nmcli -t --fields NAME".toList.isPrefixOf command then some ([], 256)
      else some ([], 0),
    fun _ _ => 0, fun _ _ => none, fun _ _ => none⟩

/-- The events that deliver a response to the remote side: the two calls
made by `local_server_write_char` (and the value set by `on_local_char_read`). -/
def Event.is_emission : Event → Bool
  | Event.notify _ _ _ => true
  | Event.set_char_value _ _ _ => true
  | _ => false

/-- The trace `tr2` continues `tr1` without any response emission. -/
def Quiet (tr1 tr2 : List Event) : Prop :=
  ∃ rest, tr2 = tr1 ++ rest ∧ ∀ e ∈ rest, e.is_emission = false

/-- A world with three saved profiles `u1`, `u2` and `u3` in which the deletion
of `u2` fails and every other deletion succeeds. -/
def World.three_profiles : World :=
  ⟨fun _ command =>
      if command = "nmcli -t -f uuid connection".toList then some ("u1\nu2\nu3\n".toList, 0)
      else none,
    fun _ command => if command = "nmcli connection delete uuid u2".toList then 256 else 0,
    fun _ _ => none, fun _ _ => none⟩

/-- The events of `k` polls of `wifi_manager_configure` that found the
interface not connected: the state query and the sleep of one second, `k`
times. -/
def polls : Nat → List Event
  | 0 => []
  | k + 1 =>
    Event.popen "nmcli -t -f GENERAL.STATE device show wlan0".toList :: Event.sleep 1 :: polls k

/-- Whether the query for the active connection, asked at the trace `t`, exits
with 0 and prints `ssid` on its first line. -/
def already_associated (w : World) (t : List Event) (ssid : List Char) : Bool :=
  let r := execute_command w t active_ssid_command [] MAX_RESPONSE_LEN
  decide (r.1 = 0) && decide (ssid = r.2.1.take (strcspn_nl r.2.1))

/-- Whether the lookup of a saved profile for `ssid`, asked at the trace `t`,
exits with 0 and prints something. -/
def profile_saved (w : World) (t : List Event) (ssid : List Char) : Bool :=
  let r := execute_command w t (profile_lookup_command ssid) [] MAX_RESPONSE_LEN
  decide (r.1 = 0) && decide (r.2.1.length > 0)

/-- Whether the deletion of the saved profile for `ssid`, asked at the trace
`t`, exits with 0. -/
def profile_deleted (w : World) (t : List Event) (ssid : List Char) : Bool :=
  decide ((execute_command w t (profile_delete_command ssid) [] MAX_RESPONSE_LEN).1 = 0)

/-- Whether the connect request for `ssid` and `password`, asked at the trace
`t`, exits with 0. -/
def connect_accepted (w : World) (t : List Event) (ssid password : List Char) : Bool :=
  decide ((execute_command w t (connect_command ssid password) [] MAX_RESPONSE_LEN).1 = 0)

/-- A world associated with `HomeNet` that has a saved profile `Office` whose
deletion is refused; every other command exits with 0 and prints nothing. -/
def World.stale_profile : World :=
  ⟨fun _ command =>
      if command = active_ssid_command then some ("HomeNet\n".toList, 0)
      else if command = profile_lookup_command "Office".toList then
        some ("Office\n".toList, 0)
      else if command = profile_delete_command "Office".toList then
        some ("Error: not authorized\n".toList, 256)
      else some ([], 0),
    fun _ _ => 0, fun _ _ => none, fun _ _ => none⟩

theorem strchr_append (a b : List Char) (c : Char) (h : c ∉ a) :
    strchr (a ++ c :: b) c = some (c :: b) := by
  induction a with
  | nil => simp [strchr]
  | cons x xs ih =>
    have hx : x ≠ c := fun e => h (by simp [e])
    have hxs : c ∉ xs := fun e => h (by simp [e])
    simp [strchr, hx, ih hxs]

theorem strchr_eq_none_iff (s : List Char) (c : Char) : strchr s c = none ↔ c ∉ s := by
  induction s with
  | nil => simp [strchr]
  | cons x xs ih =>
    by_cases hx : x = c
    · simp [strchr, hx]
    · have hx' : ¬ c = x := fun e => hx e.symm
      simp [strchr, hx, hx', ih]

theorem strchr_eq_some (s r : List Char) (c : Char) (h : strchr s c = some r) :
    ∃ a b, s = a ++ c :: b ∧ c ∉ a ∧ r = c :: b := by
  induction s with
  | nil => simp [strchr] at h
  | cons x xs ih =>
    by_cases hx : x = c
    · refine ⟨[], xs, ?_, by simp, ?_⟩
      · simp [hx]
      · simp [strchr, hx] at h
        simp [← h]
    · simp only [strchr, hx, if_false] at h
      obtain ⟨a, b, hs, ha, hr⟩ := ih h
      refine ⟨x :: a, b, by simp [hs], ?_, hr⟩
      have hx' : ¬ c = x := fun e => hx e.symm
      simp [hx', ha]

theorem strstr_eq_none_iff (json key : List Char) :
    strstr json key = none ↔ ¬ key <:+: json := by
  induction json with
  | nil =>
    by_cases hk : key = []
    · simp [strstr, hk]
    · simp [strstr, hk]
  | cons x xs ih =>
    by_cases hp : key.isPrefixOf (x :: xs) = true
    · have hp' : key <+: x :: xs := List.isPrefixOf_iff_prefix.mp hp
      have hs : strstr (x :: xs) key = some (x :: xs) := by simp [strstr, hp]
      simp [hs, List.infix_cons_iff, hp']
    · have hp' : ¬ key <+: x :: xs := fun e => hp (List.isPrefixOf_iff_prefix.mpr e)
      have hs : strstr (x :: xs) key = strstr xs key := by simp [strstr, hp]
      rw [hs, ih, List.infix_cons_iff]
      simp [hp']

theorem strstr_eq_some (json key r : List Char) (h : strstr json key = some r) :
    ∃ pre post, json = pre ++ key ++ post ∧ r = key ++ post ∧
      ∀ pre' post', json = pre' ++ key ++ post' → pre.length ≤ pre'.length := by
  induction json with
  | nil =>
    by_cases hk : key = []
    · simp [strstr, hk] at h
      exact ⟨[], [], by simp [hk], by simp [hk, ← h], by simp⟩
    · simp [strstr, hk] at h
  | cons x xs ih =>
    by_cases hp : key.isPrefixOf (x :: xs) = true
    · obtain ⟨post, hpost⟩ := List.isPrefixOf_iff_prefix.mp hp
      have hs : strstr (x :: xs) key = some (x :: xs) := by simp [strstr, hp]
      rw [hs, Option.some.injEq] at h
      exact ⟨[], post, by simp [hpost], by simp [hpost, ← h], by simp⟩
    · have hs : strstr (x :: xs) key = strstr xs key := by simp [strstr, hp]
      rw [hs] at h
      obtain ⟨pre, post, hs, hr, hfirst⟩ := ih h
      refine ⟨x :: pre, post, by simp [hs], hr, ?_⟩
      intro pre' post' h'
      cases pre' with
      | nil =>
        exfalso
        apply hp
        apply List.isPrefixOf_iff_prefix.mpr
        exact ⟨post', by simpa using h'.symm⟩
      | cons y ys =>
        simp only [List.cons_append, List.cons.injEq] at h'
        have := hfirst ys post' (by simpa using h'.2)
        simpa using this

theorem strstr_first (json key pre post : List Char) (hocc : json = pre ++ key ++ post)
    (hfirst : ∀ pre' post', json = pre' ++ key ++ post' → pre.length ≤ pre'.length) :
    strstr json key = some (key ++ post) := by
  cases h : strstr json key with
  | none =>
    exfalso
    exact (strstr_eq_none_iff json key).mp h ⟨pre, post, hocc.symm⟩
  | some r =>
    obtain ⟨pre2, post2, hs, hr, hfirst2⟩ := strstr_eq_some json key r h
    have h1 := hfirst pre2 post2 hs
    have h2 := hfirst2 pre post hocc
    have hlen : pre.length = pre2.length := Nat.le_antisymm h1 h2
    have heq : pre ++ (key ++ post) = pre2 ++ (key ++ post2) := by
      rw [← List.append_assoc, ← List.append_assoc, ← hocc, ← hs]
    have := List.append_inj_right heq hlen
    rw [hr, this]

/-! ## Lemmas on `find_key_value` -/

theorem strncpy_set_eq (buf v rest : List Char) (h : v.length < buf.length) :
    (strncpy buf (v ++ rest) v.length).set v.length NUL
      = v ++ NUL :: buf.drop (v.length + 1) := by
  have h1 : strncpy buf (v ++ rest) v.length = v ++ buf.drop v.length := by
    simp [strncpy]
  rw [h1, List.drop_eq_getElem_cons h, List.set_append_right _ _ (Nat.le_refl _),
    Nat.sub_self, List.set_cons_zero]

/-- The value computed by `find_key_value` once the positions it looks for are
known: `kp` is the text from the first occurrence of the key on. -/
theorem find_key_value_of_chain (json key buf kp a c v d : List Char) (n : Nat)
    (hk : strstr json key = some kp)
    (hkp : kp = a ++ ':' :: (c ++ '"' :: (v ++ '"' :: d)))
    (ha : ':' ∉ a) (hc : '"' ∉ c) (hv : '"' ∉ v) :
    find_key_value json key buf n =
      if v.length < n then
        (some ((strncpy buf (v ++ '"' :: d) v.length).set v.length NUL),
          (strncpy buf (v ++ '"' :: d) v.length).set v.length NUL)
      else (none, buf) := by
  have h1 : strchr kp ':' = some (':' :: (c ++ '"' :: (v ++ '"' :: d))) := by
    rw [hkp]; exact strchr_append a _ ':' ha
  have h2 : strchr (':' :: (c ++ '"' :: (v ++ '"' :: d))) '"'
      = some ('"' :: (v ++ '"' :: d)) := by
    have : '"' ∉ ':' :: c := by simp [hc]
    have := strchr_append (':' :: c) (v ++ '"' :: d) '"' this
    simpa using this
  have h3 : strchr (('"' :: (v ++ '"' :: d)).drop 1) '"' = some ('"' :: d) := by
    simpa using strchr_append v d '"' hv
  have h4 : ('"' :: (v ++ '"' :: d)).length - ('"' :: d).length - 1 = v.length := by
    simp only [List.length_cons, List.length_append]
    omega
  unfold find_key_value
  simp only [hk, h1, h2, h3, h4]
  simp

theorem first_of_strstr (json key pre post : List Char) (hocc : json = pre ++ key ++ post)
    (h : strstr json key = some (key ++ post)) :
    ∀ pre' post', json = pre' ++ key ++ post' → pre.length ≤ pre'.length := by
  obtain ⟨pre2, post2, hs, hr, hfirst⟩ := strstr_eq_some json key _ h
  have hpost : post = post2 := List.append_cancel_left hr
  subst hpost
  have hpre : pre = pre2 := by
    have : pre ++ (key ++ post) = pre2 ++ (key ++ post) := by
      rw [← List.append_assoc, ← List.append_assoc, ← hocc, ← hs]
    exact List.append_cancel_right this
  subst hpre
  exact hfirst

theorem split_after_key (key post a b : List Char) (c : Char) (hkey : c ∉ key)
    (h : key ++ post = a ++ c :: b) (ha : c ∉ a) :
    ∃ a', a = key ++ a' ∧ post = a' ++ c :: b ∧ c ∉ a' := by
  rcases List.append_eq_append_iff.mp h with ⟨a', ha', hp⟩ | ⟨c', hk, hc⟩
  · refine ⟨a', ha', hp, ?_⟩
    intro hmem
    exact ha (by simp [ha', hmem])
  · cases c' with
    | nil =>
      refine ⟨[], by simpa using hk.symm, by simpa using hc.symm, by simp⟩
    | cons y ys =>
      exfalso
      simp only [List.cons_append, List.cons.injEq] at hc
      exact hkey (by simp [hk, ← hc.1])

/-! ## The command parser (`find_key_value`) -/

/-- C5, as amended: when the key holds no ':' and its first occurrence in the
payload is followed by a ':' whose next '"' opens a value `v` closed by the
next '"', with `v` shorter than the buffer, `find_key_value` returns the
buffer, which then holds `v` and a terminator and is otherwise unchanged:
`length v + 1 ≤ n` bytes are written. -/
theorem find_key_value_extracts (json key buf pre post a c v d : List Char) (n : Nat)
    (hocc : json = pre ++ key ++ post)
    (hfirst : ∀ pre' post', json = pre' ++ key ++ post' → pre.length ≤ pre'.length)
    (hkey : ':' ∉ key)
    (hpost : post = a ++ ':' :: (c ++ '"' :: (v ++ '"' :: d)))
    (ha : ':' ∉ a) (hc : '"' ∉ c) (hv : '"' ∉ v)
    (hn : v.length < n) (hbuf : buf.length = n) :
    find_key_value json key buf n
        = (some (v ++ NUL :: buf.drop (v.length + 1)), v ++ NUL :: buf.drop (v.length + 1))
      ∧ v.length + 1 ≤ n := by
  have hk := strstr_first json key pre post hocc hfirst
  have hkp : key ++ post = (key ++ a) ++ ':' :: (c ++ '"' :: (v ++ '"' :: d)) := by
    rw [hpost, List.append_assoc]
  have ha' : ':' ∉ key ++ a := by simp [hkey, ha]
  have h := find_key_value_of_chain json key buf _ _ c v d n hk hkp ha' hc hv
  rw [h, if_pos hn, strncpy_set_eq buf v _ (by omega)]
  exact ⟨rfl, hn⟩

/-- A use of `find_key_value_extracts`: the field `ssid` of a flat payload. -/
theorem find_key_value_extracts_witness :
    find_key_value "\x7b\"ssid\":\"Home\"\x7d".toList "ssid".toList (zeroed 64) 64
        = (some ("Home".toList ++ NUL :: (zeroed 64).drop 5),
            "Home".toList ++ NUL :: (zeroed 64).drop 5)
      ∧ "Home".toList.length + 1 ≤ 64 :=
  find_key_value_extracts "\x7b\"ssid\":\"Home\"\x7d".toList "ssid".toList (zeroed 64)
    "\x7b\"".toList "\":\"Home\"\x7d".toList "\"".toList [] "Home".toList "\x7d".toList 64
    (by decide)
    (first_of_strstr _ _ "\x7b\"".toList "\":\"Home\"\x7d".toList (by decide) (by decide))
    (by decide) (by decide) (by decide) (by decide) (by decide) (by decide) (by decide)

/-- C5 as stated fails for a key that holds a ':': the key `a:"x"` occurs first
at the start of `a:"x":"y"` and is followed by a ':' whose next '"' opens the
value `y`, yet the buffer returned holds `x`. -/
theorem find_key_value_key_with_colon :
    "a:\"x\":\"y\"".toList
        = [] ++ "a:\"x\"".toList ++ ([] ++ ':' :: ([] ++ '"' :: ("y".toList ++ '"' :: [])))
      ∧ (∀ pre' post', "a:\"x\":\"y\"".toList = pre' ++ "a:\"x\"".toList ++ post' →
          ([] : List Char).length ≤ pre'.length)
      ∧ "y".toList.length < 8 ∧ (zeroed 8).length = 8
      ∧ find_key_value "a:\"x\":\"y\"".toList "a:\"x\"".toList (zeroed 8) 8
          = (some ("x".toList ++ NUL :: (zeroed 8).drop 2),
              "x".toList ++ NUL :: (zeroed 8).drop 2)
      ∧ find_key_value "a:\"x\":\"y\"".toList "a:\"x\"".toList (zeroed 8) 8
          ≠ (some ("y".toList ++ NUL :: (zeroed 8).drop 2),
              "y".toList ++ NUL :: (zeroed 8).drop 2) :=
  ⟨by decide, fun _ _ _ => Nat.zero_le _, by decide, by decide, by decide, by decide⟩

theorem find_key_value_none_unchanged (json key buf : List Char) (n : Nat)
    (h : (find_key_value json key buf n).1 = none) :
    find_key_value json key buf n = (none, buf) := by
  cases h1 : strstr json key with
  | none => simp only [find_key_value, h1]
  | some kp =>
    cases h2 : strchr kp ':' with
    | none => simp only [find_key_value, h1, h2]
    | some cp =>
      cases h3 : strchr cp '"' with
      | none => simp only [find_key_value, h1, h2, h3]
      | some sq =>
        cases h4 : strchr (sq.drop 1) '"' with
        | none => simp only [find_key_value, h1, h2, h3, h4]
        | some eq =>
          by_cases h5 : sq.length - eq.length - 1 < n
          · simp only [find_key_value, h1, h2, h3, h4, h5, if_true] at h
            exact absurd h (by simp)
          · simp only [find_key_value, h1, h2, h3, h4, h5, if_false]

/-- C6, as amended: for a key that holds no ':', `find_key_value` returns NULL
exactly when the key does not occur in the payload, or no ':' follows its
first occurrence, or no '"' follows that ':', or no '"' follows the opening
one, or the value between the two is as long as the buffer size or longer;
whenever it returns NULL the buffer is unchanged, so that a zeroed buffer
still reads as the empty string. -/
theorem find_key_value_null_iff (json key buf : List Char) (n : Nat) (hkey : ':' ∉ key) :
    ((find_key_value json key buf n).1 = none ↔
      (¬ key <:+: json) ∨
      ∃ pre post, json = pre ++ key ++ post ∧
        (∀ pre' post', json = pre' ++ key ++ post' → pre.length ≤ pre'.length) ∧
        (':' ∉ post ∨
          ∃ a b, post = a ++ ':' :: b ∧ ':' ∉ a ∧
            ('"' ∉ b ∨
              ∃ c e, b = c ++ '"' :: e ∧ '"' ∉ c ∧
                ('"' ∉ e ∨
                  ∃ v d, e = v ++ '"' :: d ∧ '"' ∉ v ∧ n ≤ v.length))))
    ∧ ((find_key_value json key buf n).1 = none → (find_key_value json key buf n).2 = buf)
    ∧ ((find_key_value json key (zeroed n) n).1 = none →
        cstr (find_key_value json key (zeroed n) n).2 = []) := by
  refine ⟨⟨?_, ?_⟩, ?_, ?_⟩
  · intro h
    cases h1 : strstr json key with
    | none => exact Or.inl ((strstr_eq_none_iff json key).mp h1)
    | some kp =>
      right
      obtain ⟨pre, post, hs, hr, hfirst⟩ := strstr_eq_some json key kp h1
      refine ⟨pre, post, hs, hfirst, ?_⟩
      cases h2 : strchr kp ':' with
      | none =>
        left
        have := (strchr_eq_none_iff kp ':').mp h2
        intro hmem
        exact this (by simp [hr, hmem])
      | some cp =>
        right
        obtain ⟨a0, b, hkp, ha0, hcp⟩ := strchr_eq_some kp cp ':' h2
        obtain ⟨a, ha0', hpost, ha⟩ := split_after_key key post a0 b ':' hkey (hr ▸ hkp) ha0
        refine ⟨a, b, hpost, ha, ?_⟩
        have hcp' : strchr cp '"' = strchr b '"' := by
          rw [hcp]; simp [strchr]
        cases h3 : strchr b '"' with
        | none => exact Or.inl ((strchr_eq_none_iff b '"').mp h3)
        | some sq =>
          right
          obtain ⟨c, e, hb, hc, hsq⟩ := strchr_eq_some b sq '"' h3
          refine ⟨c, e, hb, hc, ?_⟩
          cases h4 : strchr e '"' with
          | none => exact Or.inl ((strchr_eq_none_iff e '"').mp h4)
          | some eq =>
            right
            obtain ⟨v, d, he, hv, _⟩ := strchr_eq_some e eq '"' h4
            refine ⟨v, d, he, hv, ?_⟩
            have hchain := find_key_value_of_chain json key buf kp a0 c v d n h1
              (by rw [hkp, hb, he]) ha0 hc hv
            rw [hchain] at h
            by_contra hlt
            simp [Nat.lt_of_not_le hlt] at h
  · intro h
    rcases h with h | ⟨pre, post, hs, hfirst, h⟩
    · have h1 := (strstr_eq_none_iff json key).mpr h
      simp [find_key_value, h1]
    · have h1 := strstr_first json key pre post hs hfirst
      rcases h with h | ⟨a, b, hpost, ha, h⟩
      · have h2 : strchr (key ++ post) ':' = none :=
          (strchr_eq_none_iff _ _).mpr (by simp [hkey, h])
        simp [find_key_value, h1, h2]
      · have h2 : strchr (key ++ post) ':' = some (':' :: b) := by
          rw [hpost, ← List.append_assoc]
          exact strchr_append (key ++ a) b ':' (by simp [hkey, ha])
        have h2' : strchr (':' :: b) '"' = strchr b '"' := by simp [strchr]
        rcases h with h | ⟨c, e, hb, hc, h⟩
        · have h3 : strchr b '"' = none := (strchr_eq_none_iff _ _).mpr h
          simp [find_key_value, h1, h2, h2', h3]
        · have h3 : strchr b '"' = some ('"' :: e) := by
            rw [hb]; exact strchr_append c e '"' hc
          rcases h with h | ⟨v, d, he, hv, hn⟩
          · have h4 : strchr e '"' = none := (strchr_eq_none_iff _ _).mpr h
            simp [find_key_value, h1, h2, h2', h3, h4]
          · have hchain := find_key_value_of_chain json key buf (key ++ post) (key ++ a) c v d n
              h1 (by rw [hpost, hb, he, List.append_assoc]) (by simp [hkey, ha]) hc hv
            rw [hchain]
            simp [Nat.not_lt.mpr hn]
  · intro h
    rw [find_key_value_none_unchanged json key buf n h]
  · intro h
    rw [find_key_value_none_unchanged json key (zeroed n) n h]
    cases n with
    | zero => rfl
    | succ m => simp [cstr, zeroed, List.replicate_succ]

/-- C6 as stated fails for a key that holds a ':': the key `a:"x"` occurs in
the payload `a:"x"` with nothing after it, so no ':' follows it, yet the
result is not NULL. -/
theorem find_key_value_colon_inside_key :
    "a:\"x\"".toList = [] ++ "a:\"x\"".toList ++ []
      ∧ ':' ∉ ([] : List Char)
      ∧ (find_key_value "a:\"x\"".toList "a:\"x\"".toList (zeroed 8) 8).1 ≠ none
      ∧ cstr (find_key_value "a:\"x\"".toList "a:\"x\"".toList (zeroed 8) 8).2
          = "x".toList :=
  ⟨by decide, by decide, by decide, by decide⟩

/-- A use of `find_key_value_null_iff`: a payload without the key `ssid`. -/
theorem find_key_value_null_iff_witness :
    (find_key_value "\x7b\"action\":\"connect\"\x7d".toList "ssid".toList (zeroed 64) 64).1 = none
      ∧ (find_key_value "\x7b\"action\":\"connect\"\x7d".toList "ssid".toList (zeroed 64) 64).2
          = zeroed 64 :=
  have h := find_key_value_null_iff "\x7b\"action\":\"connect\"\x7d".toList "ssid".toList
    (zeroed 64) 64 (by decide)
  have hnone := h.1.mpr (Or.inl (by decide))
  ⟨hnone, h.2.1 hnone⟩


theorem cstr_eq_self (s : List Char) (h : NUL ∉ s) : cstr s = s := by
  unfold cstr
  rw [List.takeWhile_eq_self_iff]
  intro x hx
  have : x ≠ NUL := fun e => h (e ▸ hx)
  simpa using this

theorem cstr_append_nul (v r : List Char) (h : NUL ∉ v) : cstr (v ++ NUL :: r) = v := by
  unfold cstr
  induction v with
  | nil => simp
  | cons x xs ih =>
    have hx : x ≠ NUL := fun e => h (by simp [e])
    have hxs : NUL ∉ xs := fun e => h (by simp [e])
    simp [List.takeWhile_cons, hx, ih hxs]


theorem strstr_password_tail (S P : List Char)
    (hSp : ∀ a b, S = a ++ "password".toList ++ b → ':' ∉ b) :
    ∃ u, strstr (S ++ ("\",\"password\":\"".toList ++ (P ++ "\"\x7d".toList))) "password".toList
        = some (u ++ ':' :: ('"' :: (P ++ "\"\x7d".toList))) ∧ ':' ∉ u := by
  cases h : strstr (S ++ ("\",\"password\":\"".toList ++ (P ++ "\"\x7d".toList)))
      "password".toList with
  | none =>
    exfalso
    refine (strstr_eq_none_iff _ _).mp h ⟨S ++ "\",\"".toList, "\":\"".toList ++ (P ++ "\"\x7d".toList), ?_⟩
    simp
  | some kp =>
    obtain ⟨pre, post, hs, hr, hfirst⟩ := strstr_eq_some _ _ kp h
    have hle := hfirst (S ++ "\",\"".toList) ("\":\"".toList ++ (P ++ "\"\x7d".toList)) (by simp)
    rw [List.append_assoc] at hs
    rcases List.append_eq_append_iff.mp hs with ⟨a', hpre, hT⟩ | ⟨c', hS, hX⟩
    · have hlen : a'.length ≤ 3 := by
        have := congrArg List.length hpre
        simp at this hle
        omega
      rcases a' with _ | ⟨x, _ | ⟨y, _ | ⟨z, _ | ⟨t, a'⟩⟩⟩⟩
      · simp at hT
      · simp at hT
      · simp at hT
      · simp at hT
        refine ⟨"password\"".toList, ?_, by decide⟩
        rw [hr, ← hT.2.2.2]
        simp
      · simp at hlen
    · rcases List.append_eq_append_iff.mp hX with ⟨a'', hc', hpost⟩ | ⟨c'', hkey, hT⟩
      · have hb := hSp pre a'' (by rw [hS, hc', List.append_assoc])
        refine ⟨"password".toList ++ a'' ++ "\",\"password\"".toList, ?_, ?_⟩
        · rw [hr, hpost]; simp
        · simp [hb]
      · cases c'' with
        | nil =>
          have hb := hSp pre [] (by rw [hS]; simp at hkey; simp [hkey])
          refine ⟨"password".toList ++ "\",\"password\"".toList, ?_, by decide⟩
          simp at hT
          rw [hr, ← hT]; simp
        | cons y ys =>
          exfalso
          simp at hT
          have : '"' ∈ "password".toList := by
            rw [hkey, ← hT.1]; simp
          exact absurd this (by decide)

theorem find_key_value_value (json key buf kp a c v d : List Char) (n : Nat)
    (hk : strstr json key = some kp)
    (hkp : kp = a ++ ':' :: (c ++ '"' :: (v ++ '"' :: d)))
    (ha : ':' ∉ a) (hc : '"' ∉ c) (hv : '"' ∉ v)
    (hn : v.length < n) (hbuf : n ≤ buf.length) (h0 : NUL ∉ v) :
    cstr (find_key_value json key buf n).2 = v := by
  rw [find_key_value_of_chain json key buf kp a c v d n hk hkp ha hc hv, if_pos hn,
    strncpy_set_eq buf v _ (by omega)]
  exact cstr_append_nul v _ h0

theorem command_ack_connect (r : Int) :
    command_ack "connect".toList (success_text r)
      = "\x7b\"command\":connect,\"success\":\"".toList ++ success_text r ++ "\",\x7d".toList := by
  unfold success_text
  split <;> decide

theorem execute_command_extends (w : World) (tr : List Event) (command output : List Char)
    (n : Nat) : tr <+: (execute_command w tr command output n).2.2 := by
  unfold execute_command
  split
  · exact List.prefix_refl _
  · split <;> exact List.prefix_append _ _

theorem check_wifi_connected_extends (w : World) (tr : List Event) :
    tr <+: (check_wifi_connected w tr).2 :=
  execute_command_extends w tr _ _ _

theorem wait_connected_extends (w : World) (timeout : Nat) (tr : List Event) :
    tr <+: (wait_connected w timeout tr).2 := by
  induction timeout generalizing tr with
  | zero => exact List.prefix_refl _
  | succ t ih =>
    unfold wait_connected
    dsimp only
    split
    · exact check_wifi_connected_extends w tr
    · exact ((check_wifi_connected_extends w tr).trans (List.prefix_append _ _)).trans (ih _)

theorem configure_connect_extends (w : World) (tr : List Event) (ssid password : List Char) :
    tr <+: (configure_connect w tr ssid password).2 := by
  unfold configure_connect
  dsimp only
  split
  · exact execute_command_extends w tr _ _ _
  · exact (execute_command_extends w tr _ _ _).trans (wait_connected_extends w 20 _)

theorem configure_profile_extends (w : World) (tr : List Event)
    (ssid password response : List Char) :
    tr <+: (configure_profile w tr ssid password response).2 := by
  unfold configure_profile
  dsimp only
  split
  · split
    · exact (execute_command_extends w _ _ _ _).trans (execute_command_extends w _ _ _ _)
    · exact ((execute_command_extends w _ _ _ _).trans
        (execute_command_extends w _ _ _ _)).trans (configure_connect_extends w _ _ _)
  · exact (execute_command_extends w _ _ _ _).trans (configure_connect_extends w _ _ _)

theorem wifi_manager_configure_trace (w : World) (tr : List Event) (ssid password : List Char) :
    ∃ rest, (wifi_manager_configure w tr ssid password).2
      = tr ++ Event.wifi_manager_configure ssid password :: rest := by
  have h : (tr ++ [Event.wifi_manager_configure ssid password])
      <+: (wifi_manager_configure w tr ssid password).2 := by
    unfold wifi_manager_configure
    dsimp only
    split
    · exact List.prefix_refl _
    · split
      · split
        · exact execute_command_extends w _ _ _ _
        · exact (execute_command_extends w _ _ _ _).trans (configure_profile_extends w _ _ _ _)
      · exact (execute_command_extends w _ _ _ _).trans (configure_profile_extends w _ _ _ _)
  obtain ⟨rest, hrest⟩ := h
  exact ⟨rest, by rw [← hrest]; simp⟩

/-! ## The write handler (`on_local_char_updated`) -/

/-- C1, as amended: for the payload `{"action":"connect","ssid":"S","password":"P"}`
with `S` non-empty, `S` and `P` shorter than 64 bytes and free of '"' and NUL,
and no ':' in `S` after an occurrence of the text `password`, the handler does
what `wifi_manager_configure` does on exactly `(S, P)` and then emits the ack
whose command token is `connect`; the trace of that call starts with the entry
into `wifi_manager_configure` with `S` and `P`. -/
theorem config_write_connect (w : World) (st : State) (S P : List Char)
    (hS : S ≠ []) (hSlen : S.length < 64) (hPlen : P.length < 64)
    (hSq : '"' ∉ S) (hPq : '"' ∉ P) (hS0 : NUL ∉ S) (hP0 : NUL ∉ P)
    (hSp : ∀ a b, S = a ++ "password".toList ++ b → ':' ∉ b) :
    on_local_char_updated w st HUBV3_CONFIG_SERVICE_UUID HUBV3_WIFI_CONFIG_CHAR_UUID
        (some ("\x7b\"action\":\"connect\",\"ssid\":\"".toList ++ S
          ++ "\",\"password\":\"".toList ++ P ++ "\"\x7d".toList))
      = local_server_write_char ⟨st.notify, (wifi_manager_configure w st.trace S P).2⟩
          HUBV3_CONFIG_SERVICE_UUID HUBV3_WIFI_CONFIG_CHAR_UUID
          ("\x7b\"command\":connect,\"success\":\"".toList
            ++ success_text (wifi_manager_configure w st.trace S P).1 ++ "\",\x7d".toList)
      ∧ ∃ rest, (wifi_manager_configure w st.trace S P).2
          = st.trace ++ Event.wifi_manager_configure S P :: rest := by
  refine ⟨?_, wifi_manager_configure_trace w st.trace S P⟩
  obtain ⟨data, hdata⟩ : ∃ data, "\x7b\"action\":\"connect\",\"ssid\":\"".toList ++ S
          ++ "\",\"password\":\"".toList ++ P ++ "\"\x7d".toList = '\x7b' :: data := ⟨_, by simp; rfl⟩
  have hnul : NUL ∉ '\x7b' :: data := by
    rw [← hdata]
    simp only [List.mem_append, not_or]
    exact ⟨⟨⟨⟨by decide, hS0⟩, by decide⟩, hP0⟩, by decide⟩
  have hreq := cstr_eq_self _ hnul
  have hA : cstr (find_key_value ('\x7b' :: data) "action".toList (zeroed 64) 64).2
      = "connect".toList := by
    refine find_key_value_value _ _ _ _ "action\"".toList [] "connect".toList
      (",\"ssid\":\"".toList ++ S ++ "\",\"password\":\"".toList ++ P ++ "\"\x7d".toList) 64
      ?_ rfl (by decide) (by decide) (by decide) (by decide) (by decide) (by decide)
    rw [← hdata]
    simp [strstr, List.isPrefixOf]
  have hSs : cstr (find_key_value ('\x7b' :: data) "ssid".toList (zeroed 64) 64).2 = S := by
    refine find_key_value_value _ _ _ _ "ssid\"".toList [] S
      (",\"password\":\"".toList ++ P ++ "\"\x7d".toList) 64
      ?_ rfl (by decide) (by decide) hSq hSlen (by decide) hS0
    rw [← hdata]
    simp [strstr, List.isPrefixOf]
  have hPs : cstr (find_key_value ('\x7b' :: data) "password".toList (zeroed 64) 64).2 = P := by
    obtain ⟨u, hu, hu'⟩ := strstr_password_tail S P hSp
    refine find_key_value_value _ _ _ _ u [] P "\x7d".toList 64
      ?_ rfl hu' (by decide) hPq hPlen (by decide) hP0
    have h1 : strstr ("\x7b\"action\":\"connect\",\"ssid\":\"".toList ++ S
          ++ "\",\"password\":\"".toList ++ P ++ "\"\x7d".toList) "password".toList
        = strstr (S ++ ("\",\"password\":\"".toList ++ (P ++ "\"\x7d".toList)))
            "password".toList := by
      simp [strstr, List.isPrefixOf]
    rw [← hdata, h1, hu]
    simp
  have hSlen' : 0 < S.length := List.length_pos.mpr hS
  rw [hdata]
  simp only [on_local_char_updated, wifi_config_write, if_true, hreq, hA, hSs, hPs, hSlen',
    and_self, command_ack_connect]

theorem no_colon_after (S key : List Char) (h : ':' ∉ S) :
    ∀ a b, S = a ++ key ++ b → ':' ∉ b := by
  intro a b hS hmem
  exact h (by rw [hS]; simp [hmem])

/-- A use of `config_write_connect`: the payload of the example scenario, in a
world where the connect request succeeds. -/
theorem config_write_connect_witness :
    on_local_char_updated World.joining State.init HUBV3_CONFIG_SERVICE_UUID
        HUBV3_WIFI_CONFIG_CHAR_UUID
        (some ("\x7b\"action\":\"connect\",\"ssid\":\"".toList ++ "HomeNet".toList
          ++ "\",\"password\":\"".toList ++ "secret".toList ++ "\"\x7d".toList))
      = local_server_write_char
          ⟨State.init.notify,
            (wifi_manager_configure World.joining State.init.trace "HomeNet".toList
              "secret".toList).2⟩
          HUBV3_CONFIG_SERVICE_UUID HUBV3_WIFI_CONFIG_CHAR_UUID
          ("\x7b\"command\":connect,\"success\":\"".toList
            ++ success_text (wifi_manager_configure World.joining State.init.trace
                "HomeNet".toList "secret".toList).1 ++ "\",\x7d".toList) :=
  (config_write_connect World.joining State.init "HomeNet".toList "secret".toList
    (by decide) (by decide) (by decide) (by decide) (by decide) (by decide) (by decide)
    (no_colon_after _ _ (by decide))).1

/-- C1 as stated fails on two well-formed payloads with a non-empty ssid.  With
the action `delete_connects` the handler never enters
`wifi_manager_configure`: it deletes the saved networks and acknowledges.
With the ssid `password:x` it enters `wifi_manager_configure` with the
password `,` instead of `secret`. -/
theorem config_write_not_always_configure :
    (on_local_char_updated World.offline State.init HUBV3_CONFIG_SERVICE_UUID
        HUBV3_WIFI_CONFIG_CHAR_UUID
        (some "\x7b\"action\":\"delete_connects\",\"ssid\":\"HomeNet\",\"password\":\"secret\"\x7d".toList)).trace
      = [Event.wifi_manager_delete_networks,
          Event.popen "nmcli -t -f uuid connection".toList,
          Event.notify HUBV3_CONFIG_SERVICE_UUID HUBV3_WIFI_CONFIG_CHAR_UUID
            "\x7b\"command\":delete_connects,\"success\":\"true\",\x7d".toList]
    ∧ (on_local_char_updated World.offline State.init HUBV3_CONFIG_SERVICE_UUID
        HUBV3_WIFI_CONFIG_CHAR_UUID
        (some "\x7b\"action\":\"connect\",\"ssid\":\"password:x\",\"password\":\"secret\"\x7d".toList)).trace.head?
      = some (Event.wifi_manager_configure "password:x".toList ",".toList) := by
  constructor <;> decide

/-- C2, on the code: a write on the config endpoint whose action is neither
`connect` nor `delete_connects`, or that has no action field, or whose byte
array is empty or NULL, leaves the state as it was: nothing is emitted. -/
theorem config_write_can_emit_nothing (w : World) (st : State) :
    on_local_char_updated w st HUBV3_CONFIG_SERVICE_UUID HUBV3_WIFI_CONFIG_CHAR_UUID
        (some "\x7b\"action\":\"scan\"\x7d".toList) = st
    ∧ on_local_char_updated w st HUBV3_CONFIG_SERVICE_UUID HUBV3_WIFI_CONFIG_CHAR_UUID
        (some "\x7b\"ssid\":\"HomeNet\"\x7d".toList) = st
    ∧ on_local_char_updated w st HUBV3_CONFIG_SERVICE_UUID HUBV3_WIFI_CONFIG_CHAR_UUID
        (some []) = st
    ∧ on_local_char_updated w st HUBV3_CONFIG_SERVICE_UUID HUBV3_WIFI_CONFIG_CHAR_UUID
        none = st :=
  ⟨rfl, rfl, rfl, rfl⟩

/-- C3, on the code: for the payload of the example scenario, in a world where
the connect request succeeds, the bytes notified on the config endpoint are
`{"command":connect,"success":"true",}`, with a comma before the closing
brace, and not `{"command":connect,"success":"true"}`. -/
theorem connect_ack_has_trailing_comma :
    (on_local_char_updated World.joining State.init HUBV3_CONFIG_SERVICE_UUID
        HUBV3_WIFI_CONFIG_CHAR_UUID
        (some "\x7b\"action\":\"connect\",\"ssid\":\"HomeNet\",\"password\":\"secret\"\x7d".toList)).trace.getLast?
      = some (Event.notify HUBV3_CONFIG_SERVICE_UUID HUBV3_WIFI_CONFIG_CHAR_UUID
          "\x7b\"command\":connect,\"success\":\"true\",\x7d".toList)
    ∧ (wifi_manager_configure World.joining [] "HomeNet".toList "secret".toList).1 = 0
    ∧ "\x7b\"command\":connect,\"success\":\"true\",\x7d".toList
      ≠ "\x7b\"command\":connect,\"success\":\"true\"\x7d".toList := by
  refine ⟨by decide, by decide, by decide⟩

/-- C7: for a non-empty `ssid`, when the query for the active connection
exits with 0 and its output, cut at the first newline, is `ssid`,
`wifi_manager_configure` returns 0 and the only command it issues is that
query: no profile lookup, no delete, no connect.  When the query answers the
same after that call, a second call again returns 0 and again issues only the
query. -/
theorem configure_already_associated (w : World) (tr : List Event)
    (ssid password out : List Char) (hne : ssid ≠ [])
    (hq : w.popen (tr ++ [Event.wifi_manager_configure ssid password]) active_ssid_command
      = some (out, 0))
    (hout : (cstr (out.take (MAX_RESPONSE_LEN - 1))).take
      (strcspn_nl (cstr (out.take (MAX_RESPONSE_LEN - 1)))) = ssid) :
    wifi_manager_configure w tr ssid password
        = (0, tr ++ [Event.wifi_manager_configure ssid password,
            Event.popen active_ssid_command])
    ∧ ∀ out2 : List Char,
        w.popen (tr ++ [Event.wifi_manager_configure ssid password,
            Event.popen active_ssid_command, Event.wifi_manager_configure ssid password])
          active_ssid_command = some (out2, 0) →
        (cstr (out2.take (MAX_RESPONSE_LEN - 1))).take
          (strcspn_nl (cstr (out2.take (MAX_RESPONSE_LEN - 1)))) = ssid →
        wifi_manager_configure w (wifi_manager_configure w tr ssid password).2 ssid password
          = (0, tr ++ [Event.wifi_manager_configure ssid password,
              Event.popen active_ssid_command,
              Event.wifi_manager_configure ssid password,
              Event.popen active_ssid_command]) := by
  have hlen : ¬ ssid.length = 0 := fun h => hne (List.length_eq_zero.mp h)
  have key : ∀ (t : List Event) (o : List Char),
      w.popen (t ++ [Event.wifi_manager_configure ssid password]) active_ssid_command
        = some (o, 0) →
      (cstr (o.take (MAX_RESPONSE_LEN - 1))).take
        (strcspn_nl (cstr (o.take (MAX_RESPONSE_LEN - 1)))) = ssid →
      wifi_manager_configure w t ssid password
        = (0, t ++ [Event.wifi_manager_configure ssid password,
            Event.popen active_ssid_command]) := by
    intro t o ho hline
    have hex : execute_command w (t ++ [Event.wifi_manager_configure ssid password])
        active_ssid_command [] MAX_RESPONSE_LEN
        = (0, cstr (o.take (MAX_RESPONSE_LEN - 1)),
            t ++ [Event.wifi_manager_configure ssid password]
              ++ [Event.popen active_ssid_command]) := by
      unfold execute_command
      rw [if_neg (by decide), ho]
    unfold wifi_manager_configure
    simp only [hex, if_neg hlen, if_true, hline]
    simp
  have h1 := key tr out hq hout
  refine ⟨h1, ?_⟩
  intro out2 hq2 hout2
  rw [h1]
  have h2 := key (tr ++ [Event.wifi_manager_configure ssid password,
    Event.popen active_ssid_command]) out2 (by simpa using hq2) hout2
  simpa using h2

/-- A use of `configure_already_associated`: the query prints `HomeNet`. -/
theorem configure_already_associated_witness :
    wifi_manager_configure (World.printing "HomeNet\n".toList) [] "HomeNet".toList
        "secret".toList
      = (0, [] ++ [Event.wifi_manager_configure "HomeNet".toList "secret".toList,
          Event.popen active_ssid_command]) :=
  (configure_already_associated (World.printing "HomeNet\n".toList) [] "HomeNet".toList
    "secret".toList "HomeNet\n".toList (by decide) rfl (by decide)).1

theorem Quiet.refl (tr : List Event) : Quiet tr tr := ⟨[], by simp, by simp⟩

theorem Quiet.trans {a b c : List Event} (h1 : Quiet a b) (h2 : Quiet b c) : Quiet a c := by
  obtain ⟨r1, e1, q1⟩ := h1
  obtain ⟨r2, e2, q2⟩ := h2
  refine ⟨r1 ++ r2, by rw [e2, e1, List.append_assoc], ?_⟩
  intro e he
  rcases List.mem_append.mp he with h | h
  · exact q1 e h
  · exact q2 e h

theorem Quiet.step (tr : List Event) (e : Event) (h : e.is_emission = false) :
    Quiet tr (tr ++ [e]) := ⟨[e], rfl, by simpa using h⟩

theorem execute_command_quiet (w : World) (tr : List Event) (command output : List Char)
    (n : Nat) : Quiet tr (execute_command w tr command output n).2.2 := by
  unfold execute_command
  split
  · exact Quiet.refl _
  · split <;> exact Quiet.step _ _ rfl

theorem check_wifi_connected_quiet (w : World) (tr : List Event) :
    Quiet tr (check_wifi_connected w tr).2 :=
  execute_command_quiet w tr _ _ _

theorem get_ip_address_spec (w : World) (tr : List Event) (ifname : List Char) :
    Quiet tr (get_ip_address w tr ifname (zeroed 16) 16).2.2
      ∧ (get_ip_address w tr ifname (zeroed 16) 16).2.1.length = 16
      ∧ ((get_ip_address w tr ifname (zeroed 16) 16).1 = false →
          (get_ip_address w tr ifname (zeroed 16) 16).2.1 = zeroed 16)
      ∧ ((∀ t, w.inet_ntoa t (ifname.take (IFNAMSIZ - 1)) = none) →
          (get_ip_address w tr ifname (zeroed 16) 16).1 = false) := by
  unfold get_ip_address
  rw [if_neg (by decide)]
  dsimp only
  cases h : w.inet_ntoa tr (ifname.take (IFNAMSIZ - 1)) with
  | none =>
    refine ⟨Quiet.step _ _ rfl, by simp [zeroed], fun _ => rfl, fun _ => rfl⟩
  | some a =>
    refine ⟨Quiet.step _ _ rfl, ?_, by simp, fun hall => ?_⟩
    · have hs : (snprintf 16 (cstr a)).length ≤ 15 := by
        unfold snprintf
        simp [List.length_take]
      simp only [List.length_append, List.length_cons, List.length_drop, zeroed,
        List.length_replicate]
      omega
    · rw [hall] at h
      cases h

theorem hex2_length (b : Nat) : (hex2 b).length = 2 := rfl

theorem get_mac_address_spec (w : World) (tr : List Event) (ifname : List Char) :
    Quiet tr (get_mac_address w tr ifname (zeroed 18) 18).2.2
      ∧ (get_mac_address w tr ifname (zeroed 18) 18).2.1.length = 18
      ∧ ((get_mac_address w tr ifname (zeroed 18) 18).1 = false →
          (get_mac_address w tr ifname (zeroed 18) 18).2.1 = zeroed 18)
      ∧ ((∀ t, w.hwaddr t (ifname.take (IFNAMSIZ - 1)) = none) →
          (get_mac_address w tr ifname (zeroed 18) 18).1 = false) := by
  unfold get_mac_address
  rw [if_neg (by decide)]
  dsimp only
  cases h : w.hwaddr tr (ifname.take (IFNAMSIZ - 1)) with
  | none =>
    refine ⟨Quiet.step _ _ rfl, by simp [zeroed], fun _ => rfl, fun _ => rfl⟩
  | some d =>
    refine ⟨Quiet.step _ _ rfl, ?_, by simp, fun hall => ?_⟩
    · simp only [snprintf, List.length_append, List.length_cons, List.length_drop, zeroed,
        List.length_replicate, List.length_take, hex2_length]
      omega
    · rw [hall] at h
      cases h

theorem strncpy_length (dest src : List Char) (n : Nat) (h : n ≤ dest.length) :
    (strncpy dest src n).length = dest.length := by
  simp only [strncpy, List.length_append, List.length_take, List.length_replicate,
    List.length_drop]
  omega

theorem cstr_length_le (b : List Char) : (cstr b).length ≤ b.length :=
  (List.takeWhile_prefix _).length_le

/-- What `wifi_manager_get_status` does for a non-null pointer, whatever the
world answers. -/
theorem wifi_manager_get_status_spec (w : World) (tr : List Event) (status : wifi_status_t) :
    ∃ s, wifi_manager_get_status w tr (some status)
        = (0, some s, (wifi_manager_get_status w tr (some status)).2.2)
      ∧ Quiet tr (wifi_manager_get_status w tr (some status)).2.2
      ∧ s.ssid.length = 64 ∧ s.ip_address.length = 16 ∧ s.mac_address.length = 18
      ∧ s.connected = (check_wifi_connected w (tr ++ [Event.wifi_manager_get_status])).1
      ∧ (s.connected = false →
          (wifi_manager_get_status w tr (some status)).2.2
              = (check_wifi_connected w (tr ++ [Event.wifi_manager_get_status])).2
            ∧ cstr s.ssid = [] ∧ cstr s.ip_address = [] ∧ cstr s.mac_address = []
            ∧ cstr s.error_message = "Not connected to any WiFi network".toList)
      ∧ (s.connected = true →
          ((∀ t, w.inet_ntoa t WIFI_INTERFACE = none) → cstr s.ip_address = "Unknown".toList)
          ∧ ((∀ t, w.hwaddr t WIFI_INTERFACE = none) →
              cstr s.mac_address = "Unknown".toList)) := by
  have hq0 : Quiet tr (tr ++ [Event.wifi_manager_get_status]) := Quiet.step _ _ rfl
  have hqc := check_wifi_connected_quiet w (tr ++ [Event.wifi_manager_get_status])
  have hz1 : wifi_status_t.zero.ssid = zeroed 64 := rfl
  have hz2 : wifi_status_t.zero.ip_address = zeroed 16 := rfl
  have hz3 : wifi_status_t.zero.mac_address = zeroed 18 := rfl
  unfold wifi_manager_get_status
  dsimp only
  rw [hz1, hz2, hz3]
  cases hc : (check_wifi_connected w (tr ++ [Event.wifi_manager_get_status])).1 with
  | false =>
    rw [if_neg Bool.false_ne_true]
    refine ⟨_, rfl, hq0.trans hqc, rfl, rfl, rfl, rfl, fun _ => ?_, fun h => ?_⟩
    · refine ⟨rfl, by decide, by decide, by decide, by decide⟩
    · cases h
  | true =>
    rw [if_pos rfl]
    have hip := get_ip_address_spec w
    have hmac := get_mac_address_spec w
    refine ⟨_, rfl, ?_, ?_, ?_, ?_, rfl, fun h => ?_, fun _ => ⟨fun hall => ?_, fun hall => ?_⟩⟩
    · exact (((hq0.trans hqc).trans (execute_command_quiet w _ _ _ _)).trans
        (hip _ _).1).trans (hmac _ _).1
    · dsimp only
      split
      · exact strncpy_length _ _ _ (by decide)
      · rfl
    · dsimp only
      split
      · exact (hip _ _).2.1
      · rw [strncpy_length _ _ _ (by rw [(hip _ _).2.1]; decide)]
        exact (hip _ _).2.1
    · dsimp only
      split
      · exact (hmac _ _).2.1
      · rw [strncpy_length _ _ _ (by rw [(hmac _ _).2.1]; decide)]
        exact (hmac _ _).2.1
    · cases h
    · dsimp only
      have hf := fun t => (hip t WIFI_INTERFACE).2.2.2 hall
      rw [if_neg (by rw [hf]; decide), (hip _ _).2.2.1 (hf _)]
      decide
    · dsimp only
      have hf := fun t => (hmac t WIFI_INTERFACE).2.2.2 hall
      rw [if_neg (by rw [hf]; decide), (hmac _ _).2.2.1 (hf _)]
      decide

/-- C8 as stated fails when there is no active connection: the call returns 0
and `ssid`, `ip_address` and `mac_address` are left empty, none of them
holding `Unknown` or `none`. -/
theorem get_status_disconnected_fields_empty :
    (wifi_manager_get_status World.offline [] (some wifi_status_t.zero)).1 = 0
      ∧ (wifi_manager_get_status World.offline [] (some wifi_status_t.zero)).2.1.map
          (fun s => (s.connected, cstr s.ssid, cstr s.ip_address, cstr s.mac_address))
        = some (false, [], [], []) := by
  constructor <;> decide

/-! ## The subscribe handler (`on_local_char_start_notify`) -/

/-- C9, on the code: on a subscribe event on the status endpoint for which
`wifi_manager_get_status` reports `connected = false`, the payload notified is
`{"connected":false,"ssid":"","ip_address":"","mac_address":""}`: the three
fields are empty, not `none`, `0.0.0.0` and `00:00:00:00:00:00`. -/
theorem start_notify_disconnected_payload (w : World) (st : State)
    (h : (wifi_manager_get_status w st.trace (some wifi_status_t.zero)).2.1.map
      (fun s => s.connected) = some false) :
    on_local_char_start_notify w st HUBV3_CONFIG_SERVICE_UUID HUBV3_WIFI_STATUS_CHAR_UUID
      = ⟨true, (wifi_manager_get_status w st.trace (some wifi_status_t.zero)).2.2
          ++ [Event.notify HUBV3_CONFIG_SERVICE_UUID HUBV3_WIFI_STATUS_CHAR_UUID
            "\x7b\"connected\":false,\"ssid\":\"\",\"ip_address\":\"\",\"mac_address\":\"\"\x7d".toList]⟩ := by
  obtain ⟨s, hs, _, _, _, _, _, hfalse, _⟩ :=
    wifi_manager_get_status_spec w st.trace wifi_status_t.zero
  have h1 : (wifi_manager_get_status w st.trace (some wifi_status_t.zero)).1 = 0 := by rw [hs]
  have h2 : (wifi_manager_get_status w st.trace (some wifi_status_t.zero)).2.1 = some s := by
    rw [hs]
  rw [h2] at h
  have hc : s.connected = false := by simpa using h
  obtain ⟨_, hssid, hip, hmac, _⟩ := hfalse hc
  unfold on_local_char_start_notify
  simp only [if_true, h1, h2, Option.getD_some, hc, hssid, hip, hmac, Bool.false_eq_true,
    if_false]
  rfl

/-- A use of `start_notify_disconnected_payload`: a subscribe event in a world
where nothing works. -/
theorem start_notify_disconnected_payload_witness :
    on_local_char_start_notify World.offline State.init HUBV3_CONFIG_SERVICE_UUID
        HUBV3_WIFI_STATUS_CHAR_UUID
      = ⟨true, (wifi_manager_get_status World.offline State.init.trace
            (some wifi_status_t.zero)).2.2
          ++ [Event.notify HUBV3_CONFIG_SERVICE_UUID HUBV3_WIFI_STATUS_CHAR_UUID
            "\x7b\"connected\":false,\"ssid\":\"\",\"ip_address\":\"\",\"mac_address\":\"\"\x7d".toList]⟩ :=
  start_notify_disconnected_payload World.offline State.init (by decide)

/-- C10: on a subscribe event on the status endpoint, whatever the delivery
flag was and whatever the world answers, the handler sets the flag and
continues the trace, without any emission, up to one final push notification
on the status endpoint, whose bytes are
`{"connected":<true|false>,"ssid":"<s>","ip_address":"<a>","mac_address":"<m>"}`. -/
theorem start_notify_status_emits_once (w : World) (st : State) :
    ∃ tr connected ssid ip_address mac_address,
      Quiet st.trace tr
      ∧ on_local_char_start_notify w st HUBV3_CONFIG_SERVICE_UUID HUBV3_WIFI_STATUS_CHAR_UUID
        = ⟨true, tr ++ [Event.notify HUBV3_CONFIG_SERVICE_UUID HUBV3_WIFI_STATUS_CHAR_UUID
            ("\x7b\"connected\":".toList ++ connected ++ ",\"ssid\":\"".toList ++ ssid
              ++ "\",\"ip_address\":\"".toList ++ ip_address
              ++ "\",\"mac_address\":\"".toList ++ mac_address ++ "\"\x7d".toList)]⟩
      ∧ (connected = "true".toList ∨ connected = "false".toList) := by
  obtain ⟨s, hs, hq, hl1, hl2, hl3, _, _, _⟩ :=
    wifi_manager_get_status_spec w st.trace wifi_status_t.zero
  have h1 : (wifi_manager_get_status w st.trace (some wifi_status_t.zero)).1 = 0 := by rw [hs]
  have h2 : (wifi_manager_get_status w st.trace (some wifi_status_t.zero)).2.1 = some s := by
    rw [hs]
  refine ⟨_, if s.connected then "true".toList else "false".toList, cstr s.ssid,
    cstr s.ip_address, cstr s.mac_address, hq, ?_, ?_⟩
  · have b1 := cstr_length_le s.ssid
    have b2 := cstr_length_le s.ip_address
    have b3 := cstr_length_le s.mac_address
    have b0 : (if s.connected then "true".toList else "false".toList).length ≤ 5 := by
      split <;> decide
    have hfit : status_payload (if s.connected then "true".toList else "false".toList)
        (cstr s.ssid) (cstr s.ip_address) (cstr s.mac_address)
        = "\x7b\"connected\":".toList ++ (if s.connected then "true".toList else "false".toList)
          ++ ",\"ssid\":\"".toList ++ cstr s.ssid ++ "\",\"ip_address\":\"".toList
          ++ cstr s.ip_address ++ "\",\"mac_address\":\"".toList ++ cstr s.mac_address
          ++ "\"\x7d".toList := by
      unfold status_payload snprintf
      apply List.take_of_length_le
      simp only [List.length_append]
      have e1 : "\x7b\"connected\":".toList.length = 13 := by decide
      have e2 : ",\"ssid\":\"".toList.length = 9 := by decide
      have e3 : "\",\"ip_address\":\"".toList.length = 16 := by decide
      have e4 : "\",\"mac_address\":\"".toList.length = 17 := by decide
      have e5 : "\"\x7d".toList.length = 2 := by decide
      rw [e1, e2, e3, e4, e5]
      omega
    unfold on_local_char_start_notify
    simp only [if_true, h1, h2, Option.getD_some, hfit]
    unfold local_server_write_char
    rw [if_neg (by simp), if_pos rfl]
  · cases s.connected <;> simp

/-! ## The custom commands (`wifi_manager_execute_command`) -/

/-- C11: for a command name other than `restart_wifi`, `restart_device` and
`factory_reset`, `wifi_manager_execute_command` returns -1 and does nothing
outside the process: the trace grows by the entry into the function only.
When `Unknown command: ` and the name fit the response buffer, the response
is `Unknown command: ` followed by the name. -/
theorem execute_unknown_command (w : World) (tr : List Event)
    (command response : List Char) (response_size : Nat)
    (h1 : command ≠ "restart_wifi".toList) (h2 : command ≠ "restart_device".toList)
    (h3 : command ≠ "factory_reset".toList) :
    (wifi_manager_execute_command w tr command response response_size).1 = -1
      ∧ (wifi_manager_execute_command w tr command response response_size).2.2
          = tr ++ [Event.wifi_manager_execute_command command]
      ∧ ("Unknown command: ".toList.length + command.length < response_size →
          (wifi_manager_execute_command w tr command response response_size).2.1
            = "Unknown command: ".toList ++ command) := by
  unfold wifi_manager_execute_command
  dsimp only
  by_cases h0 : response_size = 0
  · rw [if_pos h0]
    refine ⟨rfl, rfl, fun hfit => ?_⟩
    omega
  · rw [if_neg h0, if_neg h1, if_neg h2, if_neg h3]
    refine ⟨rfl, rfl, fun hfit => ?_⟩
    unfold snprintf
    apply List.take_of_length_le
    rw [List.length_append]
    omega

/-- A use of `execute_unknown_command`: the command `bogus`. -/
theorem execute_unknown_command_witness :
    (wifi_manager_execute_command World.offline [] "bogus".toList [] 256).1 = -1
      ∧ (wifi_manager_execute_command World.offline [] "bogus".toList [] 256).2.2
          = [] ++ [Event.wifi_manager_execute_command "bogus".toList]
      ∧ (wifi_manager_execute_command World.offline [] "bogus".toList [] 256).2.1
          = "Unknown command: ".toList ++ "bogus".toList :=
  have h := execute_unknown_command World.offline [] "bogus".toList [] 256
    (by decide) (by decide) (by decide)
  ⟨h.1, h.2.1, h.2.2 (by decide)⟩

/-! ## The read handler (`on_local_char_read`) -/

/-- C15: a read on the system-info endpoint sets the value of that endpoint to
the four bytes `{ok}` and returns NULL (success); the trace grows by that one
event, so no WiFi manager operation is entered.  A read on any other endpoint
or service returns the rejection error and leaves the state as it was. -/
theorem read_sysinfo_static (rejected : List Char) (st : State) :
    on_local_char_read rejected st HUBV3_CONFIG_SERVICE_UUID HUBV3_SYSINFO_CHAR_UUID
        = (none, ⟨st.notify, st.trace ++ [Event.set_char_value HUBV3_CONFIG_SERVICE_UUID
            HUBV3_SYSINFO_CHAR_UUID "\x7bok\x7d".toList]⟩)
      ∧ ∀ service_uuid char_uuid : List Char,
          ¬ (service_uuid = HUBV3_CONFIG_SERVICE_UUID ∧ char_uuid = HUBV3_SYSINFO_CHAR_UUID) →
          on_local_char_read rejected st service_uuid char_uuid = (some rejected, st) := by
  refine ⟨rfl, fun s c h => ?_⟩
  unfold on_local_char_read
  rw [if_neg h]

/-- A use of `read_sysinfo_static`: a read on the status endpoint is rejected. -/
theorem read_sysinfo_static_witness :
    on_local_char_read "org.bluez.Error.Rejected".toList State.init
        HUBV3_CONFIG_SERVICE_UUID HUBV3_WIFI_STATUS_CHAR_UUID
      = (some "org.bluez.Error.Rejected".toList, State.init) :=
  (read_sysinfo_static "org.bluez.Error.Rejected".toList State.init).2 _ _ (by decide)

/-! ## Substring matching in `find_key_value` -/

/-- C18: `find_key_value` takes the first place where the key text occurs,
inside a longer field name or inside a value as well.  In
`{"bssid":"AA","ssid":"Home"}` the key `ssid` is first found inside `bssid`,
and the result is `AA`; in `{"note":"ssid:x","ssid":"Home"}` it is first found
inside the value of `note`, and the result is `,`.  Neither is `Home`, the
value of the field named `ssid`. -/
theorem find_key_value_substring_match :
    strstr "\x7b\"bssid\":\"AA\",\"ssid\":\"Home\"\x7d".toList "ssid".toList
        = some "ssid\":\"AA\",\"ssid\":\"Home\"\x7d".toList
      ∧ cstr (find_key_value "\x7b\"bssid\":\"AA\",\"ssid\":\"Home\"\x7d".toList "ssid".toList
          (zeroed 64) 64).2 = "AA".toList
      ∧ strstr "\x7b\"note\":\"ssid:x\",\"ssid\":\"Home\"\x7d".toList "ssid".toList
        = some "ssid:x\",\"ssid\":\"Home\"\x7d".toList
      ∧ cstr (find_key_value "\x7b\"note\":\"ssid:x\",\"ssid\":\"Home\"\x7d".toList
          "ssid".toList (zeroed 64) 64).2 = ",".toList
      ∧ "AA".toList ≠ "Home".toList ∧ ",".toList ≠ "Home".toList := by
  refine ⟨by decide, by decide, by decide, by decide, by decide, by decide⟩

/-! ## Deleting the saved networks (`wifi_manager_delete_networks`) -/

theorem takeWhile_append_newline (v r : List Char) (h : '\n' ∉ v) :
    (v ++ '\n' :: r).takeWhile (fun c => c != '\n') = v := by
  induction v with
  | nil => simp
  | cons x xs ih =>
    have hx : x ≠ '\n' := fun e => h (by simp [e])
    have hxs : '\n' ∉ xs := fun e => h (by simp [e])
    simp [List.takeWhile_cons, hx, ih hxs]

theorem fgets_line (k : Nat) (v rest : List Char) (h : '\n' ∉ v) (hk : v.length < k) :
    fgets k (v ++ '\n' :: rest) = (v ++ ['\n'], rest) := by
  induction v generalizing k with
  | nil =>
    cases k with
    | zero => omega
    | succ k => simp [fgets]
  | cons x xs ih =>
    cases k with
    | zero => omega
    | succ k =>
      have hx : x ≠ '\n' := fun e => h (by simp [e])
      have hxs : '\n' ∉ xs := fun e => h (by simp [e])
      have hk' : xs.length < k := by simpa using hk
      simp [fgets, hx, ih k hxs hk']

theorem delete_loop_nil (w : World) (fuel : Nat) (tr : List Event) :
    delete_loop w fuel [] tr = tr := by
  cases fuel <;> rfl

theorem delete_loop_line (w : World) (fuel : Nat) (tr : List Event) (v rest : List Char)
    (h1 : '\n' ∉ v) (h2 : NUL ∉ v) (h3 : v.length ≤ 98) :
    delete_loop w (fuel + 1) (v ++ '\n' :: rest) tr
      = delete_loop w fuel rest
          (if v = [] then tr
            else tr ++ [Event.system ("nmcli connection delete uuid ".toList ++ v)]) := by
  obtain ⟨c, s, hcs⟩ : ∃ c s, v ++ '\n' :: rest = c :: s := by
    cases v with
    | nil => exact ⟨_, _, rfl⟩
    | cons x xs => exact ⟨_, _, rfl⟩
  have hf : fgets (MAX_COMMAND_LEN - 1) (c :: s) = (v ++ ['\n'], rest) := by
    rw [← hcs]
    exact fgets_line _ v rest h1 (by unfold MAX_COMMAND_LEN; omega)
  have hc : cstr (v ++ ['\n']) = v ++ ['\n'] :=
    cstr_eq_self _ (by
      intro hmem
      rcases List.mem_append.mp hmem with hm | hm
      · exact h2 hm
      · exact absurd (List.mem_singleton.mp hm) (by decide))
  have hl : (v ++ ['\n']).take (strcspn_nl (v ++ ['\n'])) = v := by
    unfold strcspn_nl
    rw [takeWhile_append_newline v [] h1]
    simp
  rw [hcs]
  show (let r := fgets (MAX_COMMAND_LEN - 1) (c :: s)
    let line := (cstr r.1).take (strcspn_nl (cstr r.1))
    if line.length > 0 then
      delete_loop w fuel r.2
        (tr ++ [Event.system (snprintf 128 ("nmcli connection delete uuid ".toList ++ line))])
    else delete_loop w fuel r.2 tr) = _
  simp only [hf, hc, hl]
  by_cases hv : v = []
  · simp [hv]
  · have hpos : v.length > 0 := List.length_pos.mpr hv
    have hfit : snprintf 128 ("nmcli connection delete uuid ".toList ++ v)
        = "nmcli connection delete uuid ".toList ++ v := by
      unfold snprintf
      apply List.take_of_length_le
      have : "nmcli connection delete uuid ".toList.length = 29 := by decide
      rw [List.length_append, this]
      omega
    rw [if_pos hpos, if_neg hv, hfit]

theorem delete_loop_lines (w : World) (ids : List (List Char)) :
    ∀ (fuel : Nat) (tr : List Event),
      (∀ id ∈ ids, '\n' ∉ id ∧ NUL ∉ id ∧ id.length ≤ 98) → ids.length ≤ fuel →
      delete_loop w fuel (ids.foldr (fun id acc => id ++ '\n' :: acc) []) tr
        = tr ++ (ids.filter (fun id => decide (id ≠ []))).map
            (fun id => Event.system ("nmcli connection delete uuid ".toList ++ id)) := by
  induction ids with
  | nil =>
    intro fuel tr _ _
    simp [delete_loop_nil]
  | cons id ids ih =>
    intro fuel tr hids hfuel
    cases fuel with
    | zero => simp at hfuel
    | succ f =>
      have hid := hids id (List.mem_cons_self _ _)
      have hrest : ∀ x ∈ ids, '\n' ∉ x ∧ NUL ∉ x ∧ x.length ≤ 98 :=
        fun x hx => hids x (List.mem_cons_of_mem _ hx)
      have hf : ids.length ≤ f := by simpa using hfuel
      rw [List.foldr_cons, delete_loop_line w f tr id _ hid.1 hid.2.1 hid.2.2, ih f _ hrest hf]
      by_cases hv : id = []
      · simp [hv]
      · simp [hv]

theorem lines_length (ids : List (List Char)) :
    ids.length ≤ (ids.foldr (fun id acc => id ++ '\n' :: acc) []).length := by
  induction ids with
  | nil => simp
  | cons id ids ih =>
    simp only [List.foldr_cons, List.length_append, List.length_cons]
    omega

/-- C12, as amended: when the enumeration prints one line for each id of the
list `ids`, each id free of newline and NUL and at most 98 bytes long,
`wifi_manager_delete_networks` returns 0 and issues, after the enumeration,
exactly one delete for each non-empty id, in the order of the list.  This holds
for every world, so whatever `system` returns for any of the deletes. -/
theorem delete_networks_each_profile (w : World) (tr : List Event) (ids : List (List Char))
    (status : Int)
    (hids : ∀ id ∈ ids, '\n' ∉ id ∧ NUL ∉ id ∧ id.length ≤ 98)
    (hq : w.popen (tr ++ [Event.wifi_manager_delete_networks])
        "nmcli -t -f uuid connection".toList
      = some (ids.foldr (fun id acc => id ++ '\n' :: acc) [], status)) :
    wifi_manager_delete_networks w tr
      = (0, tr ++ [Event.wifi_manager_delete_networks,
            Event.popen "nmcli -t -f uuid connection".toList]
          ++ (ids.filter (fun id => decide (id ≠ []))).map
            (fun id => Event.system ("nmcli connection delete uuid ".toList ++ id))) := by
  unfold wifi_manager_delete_networks
  simp only [hq]
  rw [delete_loop_lines w ids _ _ hids (lines_length ids)]
  simp

/-- A use of `delete_networks_each_profile`: three profiles, the deletion of
the second of which fails; the third is still deleted. -/
theorem delete_networks_each_profile_witness :
    World.three_profiles.system [] "nmcli connection delete uuid u2".toList ≠ 0
      ∧ wifi_manager_delete_networks World.three_profiles []
        = (0, [] ++ [Event.wifi_manager_delete_networks,
              Event.popen "nmcli -t -f uuid connection".toList]
            ++ (["u1".toList, "u2".toList, "u3".toList].filter
                (fun id => decide (id ≠ []))).map
              (fun id => Event.system ("nmcli connection delete uuid ".toList ++ id))) :=
  ⟨by decide,
    delete_networks_each_profile World.three_profiles [] ["u1".toList, "u2".toList, "u3".toList]
      0 (by decide) (by decide)⟩

set_option maxRecDepth 100000 in
/-- C12 as stated fails for a profile id that does not fit the buffers: for one
id of 512 bytes the line is read in two pieces and two deletes are issued,
the first for the first 98 bytes of the id and the second for its last
byte. -/
theorem delete_networks_long_id :
    wifi_manager_delete_networks (World.printing (List.replicate 512 'a' ++ ['\n'])) []
      = (0, [Event.wifi_manager_delete_networks,
          Event.popen "nmcli -t -f uuid connection".toList,
          Event.system ("nmcli connection delete uuid ".toList ++ List.replicate 98 'a'),
          Event.system ("nmcli connection delete uuid ".toList ++ ['a'])]) := by
  decide

/-! ## The delivery flag -/

theorem wait_connected_quiet (w : World) (timeout : Nat) (tr : List Event) :
    Quiet tr (wait_connected w timeout tr).2 := by
  induction timeout generalizing tr with
  | zero => exact Quiet.refl _
  | succ t ih =>
    unfold wait_connected
    dsimp only
    split
    · exact check_wifi_connected_quiet w tr
    · exact ((check_wifi_connected_quiet w tr).trans
        (Quiet.step _ (Event.sleep 1) rfl)).trans (ih _)

theorem configure_connect_quiet (w : World) (tr : List Event) (ssid password : List Char) :
    Quiet tr (configure_connect w tr ssid password).2 := by
  unfold configure_connect
  dsimp only
  split
  · exact execute_command_quiet w tr _ _ _
  · exact (execute_command_quiet w tr _ _ _).trans (wait_connected_quiet w 20 _)

theorem configure_profile_quiet (w : World) (tr : List Event)
    (ssid password response : List Char) :
    Quiet tr (configure_profile w tr ssid password response).2 := by
  unfold configure_profile
  dsimp only
  split
  · split
    · exact (execute_command_quiet w _ _ _ _).trans (execute_command_quiet w _ _ _ _)
    · exact ((execute_command_quiet w _ _ _ _).trans
        (execute_command_quiet w _ _ _ _)).trans (configure_connect_quiet w _ _ _)
  · exact (execute_command_quiet w _ _ _ _).trans (configure_connect_quiet w _ _ _)

theorem wifi_manager_configure_quiet (w : World) (tr : List Event) (ssid password : List Char) :
    Quiet tr (wifi_manager_configure w tr ssid password).2 := by
  have h0 : Quiet tr (tr ++ [Event.wifi_manager_configure ssid password]) :=
    Quiet.step _ _ rfl
  unfold wifi_manager_configure
  dsimp only
  split
  · exact h0
  · split
    · split
      · exact h0.trans (execute_command_quiet w _ _ _ _)
      · exact (h0.trans (execute_command_quiet w _ _ _ _)).trans
          (configure_profile_quiet w _ _ _ _)
    · exact (h0.trans (execute_command_quiet w _ _ _ _)).trans
        (configure_profile_quiet w _ _ _ _)

theorem delete_loop_quiet (w : World) (fuel : Nat) :
    ∀ (stream : List Char) (tr : List Event), Quiet tr (delete_loop w fuel stream tr) := by
  induction fuel with
  | zero => intro stream tr; exact Quiet.refl _
  | succ f ih =>
    intro stream tr
    cases stream with
    | nil => exact Quiet.refl _
    | cons c s =>
      unfold delete_loop
      dsimp only
      split
      · exact (Quiet.step _ (Event.system _) rfl).trans (ih _ _)
      · exact ih _ _

theorem wifi_manager_delete_networks_quiet (w : World) (tr : List Event) :
    Quiet tr (wifi_manager_delete_networks w tr).2 := by
  have h0 : Quiet tr (tr ++ [Event.wifi_manager_delete_networks]) := Quiet.step _ _ rfl
  unfold wifi_manager_delete_networks
  dsimp only
  split
  · exact h0.trans (Quiet.step _ (Event.popen _) rfl)
  · exact (h0.trans (Quiet.step _ (Event.popen _) rfl)).trans (delete_loop_quiet w _ _ _)

theorem wifi_manager_execute_command_quiet (w : World) (tr : List Event)
    (command response : List Char) (n : Nat) :
    Quiet tr (wifi_manager_execute_command w tr command response n).2.2 := by
  have h0 : Quiet tr (tr ++ [Event.wifi_manager_execute_command command]) :=
    Quiet.step _ _ rfl
  unfold wifi_manager_execute_command
  dsimp only
  split
  · exact h0
  · split
    · exact h0.trans (execute_command_quiet w _ _ _ _)
    · split
      · exact h0.trans (Quiet.step _ Event.fork_reboot rfl)
      · split
        · exact h0.trans (wifi_manager_delete_networks_quiet w _)
        · exact h0

theorem command_ack_ne_nil (command success : List Char) :
    (command_ack command success).length ≠ 0 := by
  unfold command_ack snprintf
  simp [List.length_take]

theorem local_server_write_char_emits (st : State) (service_uuid char_uuid bytes : List Char)
    (h : bytes.length ≠ 0) :
    local_server_write_char st service_uuid char_uuid bytes
      = ⟨st.notify, st.trace ++ [if st.notify then Event.notify service_uuid char_uuid bytes
          else Event.set_char_value service_uuid char_uuid bytes]⟩ := by
  unfold local_server_write_char
  rw [if_neg h]
  split <;> simp [*]

theorem wifi_config_write_shape (w : World) (st : State)
    (service_uuid char_uuid request : List Char) :
    wifi_config_write w st service_uuid char_uuid request = st
      ∨ ∃ tr bytes, Quiet st.trace tr
        ∧ wifi_config_write w st service_uuid char_uuid request
          = ⟨st.notify, tr ++ [if st.notify then Event.notify service_uuid char_uuid bytes
              else Event.set_char_value service_uuid char_uuid bytes]⟩ := by
  unfold wifi_config_write
  dsimp only
  split
  · right
    split
    · exact ⟨_, _, wifi_manager_configure_quiet w _ _ _,
        local_server_write_char_emits _ _ _ _ (command_ack_ne_nil _ _)⟩
    · exact ⟨_, _, Quiet.refl _,
        local_server_write_char_emits _ _ _ _ (command_ack_ne_nil _ _)⟩
  · split
    · right
      exact ⟨_, _, wifi_manager_delete_networks_quiet w _,
        local_server_write_char_emits _ _ _ _ (command_ack_ne_nil _ _)⟩
    · exact Or.inl rfl

theorem custom_command_write_shape (w : World) (st : State)
    (service_uuid char_uuid : List Char) (byteArray : Option (List Char)) :
    ∃ tr bytes, Quiet st.trace tr
      ∧ custom_command_write w st service_uuid char_uuid byteArray
        = ⟨st.notify, tr ++ [if st.notify then Event.notify service_uuid char_uuid bytes
            else Event.set_char_value service_uuid char_uuid bytes]⟩ := by
  unfold custom_command_write
  split
  · exact ⟨_, _, wifi_manager_execute_command_quiet w _ _ _ _,
      local_server_write_char_emits _ _ _ _ (command_ack_ne_nil _ _)⟩
  · exact ⟨_, _, Quiet.refl _,
      local_server_write_char_emits _ _ _ _ (command_ack_ne_nil _ _)⟩

/-- Every write either leaves the state as it was or continues the trace without
emission up to one final emission in the delivery mode of the flag. -/
theorem on_local_char_updated_shape (w : World) (st : State)
    (service_uuid char_uuid : List Char) (byteArray : Option (List Char)) :
    on_local_char_updated w st service_uuid char_uuid byteArray = st
      ∨ ∃ tr bytes, Quiet st.trace tr
        ∧ on_local_char_updated w st service_uuid char_uuid byteArray
          = ⟨st.notify, tr ++ [if st.notify then Event.notify service_uuid char_uuid bytes
              else Event.set_char_value service_uuid char_uuid bytes]⟩ := by
  unfold on_local_char_updated
  split
  · split
    · split
      · exact wifi_config_write_shape w st _ _ _
      · exact Or.inl rfl
    · split
      · exact Or.inr (custom_command_write_shape w st _ _ _)
      · exact Or.inl rfl
  · exact Or.inl rfl

/-- C13, as amended: the delivery flag starts out as push (`notify = true`).  A
write on an endpoint of the service in the initial state either emits nothing
or ends in one push notification on that endpoint, after a trace without
emission; a write on the custom-command endpoint always ends in one. -/
theorem initial_delivery_is_push (w : World) (char_uuid : List Char)
    (byteArray : Option (List Char)) :
    State.init.notify = true
      ∧ (on_local_char_updated w State.init HUBV3_CONFIG_SERVICE_UUID char_uuid byteArray
            = State.init
          ∨ ∃ tr bytes, Quiet State.init.trace tr
            ∧ on_local_char_updated w State.init HUBV3_CONFIG_SERVICE_UUID char_uuid byteArray
              = ⟨true, tr ++ [Event.notify HUBV3_CONFIG_SERVICE_UUID char_uuid bytes]⟩)
      ∧ ∃ tr bytes, Quiet State.init.trace tr
          ∧ on_local_char_updated w State.init HUBV3_CONFIG_SERVICE_UUID
              HUBV3_CUSTOM_COMMAND_CHAR_UUID byteArray
            = ⟨true, tr ++ [Event.notify HUBV3_CONFIG_SERVICE_UUID
                HUBV3_CUSTOM_COMMAND_CHAR_UUID bytes]⟩ := by
  refine ⟨rfl, ?_, ?_⟩
  · rcases on_local_char_updated_shape w State.init HUBV3_CONFIG_SERVICE_UUID char_uuid
      byteArray with h | ⟨tr, bytes, hq, h⟩
    · exact Or.inl h
    · exact Or.inr ⟨tr, bytes, hq, h⟩
  · obtain ⟨tr, bytes, hq, h⟩ := custom_command_write_shape w State.init
      HUBV3_CONFIG_SERVICE_UUID HUBV3_CUSTOM_COMMAND_CHAR_UUID byteArray
    have hu : on_local_char_updated w State.init HUBV3_CONFIG_SERVICE_UUID
        HUBV3_CUSTOM_COMMAND_CHAR_UUID byteArray
        = custom_command_write w State.init HUBV3_CONFIG_SERVICE_UUID
            HUBV3_CUSTOM_COMMAND_CHAR_UUID byteArray := by
      unfold on_local_char_updated
      rw [if_pos rfl, if_neg (by decide), if_pos rfl]
    refine ⟨tr, bytes, hq, ?_⟩
    rw [hu, h]
    rfl

/-- C13 as stated fails: in the initial state the ack of a write on the
custom-command endpoint is delivered by push notification, not by a passive
value-set. -/
theorem initial_write_is_notified :
    (on_local_char_updated World.offline State.init HUBV3_CONFIG_SERVICE_UUID
        HUBV3_CUSTOM_COMMAND_CHAR_UUID (some "bogus".toList))
      = ⟨true, [Event.wifi_manager_execute_command "bogus".toList,
          Event.notify HUBV3_CONFIG_SERVICE_UUID HUBV3_CUSTOM_COMMAND_CHAR_UUID
            "\x7b\"command\":bogus,\"success\":\"false\",\x7d".toList]⟩ := by
  decide

theorem local_server_write_char_notify (st : State) (service_uuid char_uuid bytes : List Char) :
    (local_server_write_char st service_uuid char_uuid bytes).notify = st.notify := by
  unfold local_server_write_char
  split
  · rfl
  · split <;> rfl

/-- C14, as amended: the delivery flag is one flag for the whole service.  An
unsubscribe event on any endpoint of the service clears it and changes
nothing else, so that the next emission on every endpoint of the service is a
passive value-set.  A subscribe event on any endpoint other than the
system-info endpoint sets it, for every endpoint; a subscribe event on the
system-info endpoint leaves the state as it was.  Events of another service
leave the state as it was. -/
theorem delivery_flag_is_shared :
    (∀ (st : State) (char_uuid : List Char),
      on_local_char_stop_notify st HUBV3_CONFIG_SERVICE_UUID char_uuid = ⟨false, st.trace⟩)
    ∧ (∀ (st : State) (char_uuid other_uuid bytes : List Char), bytes ≠ [] →
        local_server_write_char
            (on_local_char_stop_notify st HUBV3_CONFIG_SERVICE_UUID char_uuid)
            HUBV3_CONFIG_SERVICE_UUID other_uuid bytes
          = ⟨false, st.trace
              ++ [Event.set_char_value HUBV3_CONFIG_SERVICE_UUID other_uuid bytes]⟩)
    ∧ (∀ (w : World) (st : State) (char_uuid : List Char),
        char_uuid ≠ HUBV3_SYSINFO_CHAR_UUID →
        (on_local_char_start_notify w st HUBV3_CONFIG_SERVICE_UUID char_uuid).notify = true)
    ∧ (∀ (w : World) (st : State),
        on_local_char_start_notify w st HUBV3_CONFIG_SERVICE_UUID HUBV3_SYSINFO_CHAR_UUID
          = st)
    ∧ (∀ (w : World) (st : State) (service_uuid char_uuid : List Char),
        service_uuid ≠ HUBV3_CONFIG_SERVICE_UUID →
        on_local_char_start_notify w st service_uuid char_uuid = st
          ∧ on_local_char_stop_notify st service_uuid char_uuid = st) := by
  refine ⟨fun st c => rfl, fun st c o bytes hb => ?_, fun w st c hc => ?_, fun w st => rfl,
    fun w st s c hs => ?_⟩
  · have hlen : bytes.length ≠ 0 := fun h => hb (List.length_eq_zero.mp h)
    rw [local_server_write_char_emits _ _ _ _ hlen]
    rfl
  · unfold on_local_char_start_notify
    rw [if_pos rfl]
    split
    · exact local_server_write_char_notify _ _ _ _
    · rfl
  · unfold on_local_char_start_notify on_local_char_stop_notify
    rw [if_neg hs, if_neg hs]
    exact ⟨rfl, rfl⟩

/-- A use of `delivery_flag_is_shared`: after an unsubscribe event on the status
endpoint, a subscribe event on the config endpoint sets the flag again. -/
theorem delivery_flag_is_shared_witness :
    (on_local_char_start_notify World.offline
        (on_local_char_stop_notify State.init HUBV3_CONFIG_SERVICE_UUID
          HUBV3_WIFI_STATUS_CHAR_UUID)
        HUBV3_CONFIG_SERVICE_UUID HUBV3_WIFI_CONFIG_CHAR_UUID).notify = true :=
  delivery_flag_is_shared.2.2.1 World.offline _ HUBV3_WIFI_CONFIG_CHAR_UUID (by decide)

/-- C14 as stated fails: an unsubscribe event on the status endpoint changes the
delivery of the custom-command endpoint.  The same write on the
custom-command endpoint is acknowledged by push notification before that
event and by a passive value-set after it. -/
theorem unsubscribe_changes_other_endpoint :
    (on_local_char_updated World.offline State.init HUBV3_CONFIG_SERVICE_UUID
        HUBV3_CUSTOM_COMMAND_CHAR_UUID (some "bogus".toList)).trace.getLast?
      = some (Event.notify HUBV3_CONFIG_SERVICE_UUID HUBV3_CUSTOM_COMMAND_CHAR_UUID
          "\x7b\"command\":bogus,\"success\":\"false\",\x7d".toList)
    ∧ (on_local_char_updated World.offline
        (on_local_char_stop_notify State.init HUBV3_CONFIG_SERVICE_UUID
          HUBV3_WIFI_STATUS_CHAR_UUID)
        HUBV3_CONFIG_SERVICE_UUID HUBV3_CUSTOM_COMMAND_CHAR_UUID
        (some "bogus".toList)).trace.getLast?
      = some (Event.set_char_value HUBV3_CONFIG_SERVICE_UUID HUBV3_CUSTOM_COMMAND_CHAR_UUID
          "\x7b\"command\":bogus,\"success\":\"false\",\x7d".toList) := by
  constructor <;> decide

/-! ## The connect sequence of `wifi_manager_configure` -/

theorem execute_command_trace (w : World) (t : List Event) (command output : List Char) :
    (execute_command w t command output MAX_RESPONSE_LEN).2.2 = t ++ [Event.popen command] := by
  unfold execute_command
  rw [if_neg (by decide)]
  split <;> rfl

theorem execute_command_output_irrelevant (w : World) (t : List Event)
    (command output : List Char) (n : Nat) :
    (execute_command w t command output n).1 = (execute_command w t command [] n).1
      ∧ ((execute_command w t command output n).1 = 0 →
          (execute_command w t command output n).2.1
            = (execute_command w t command [] n).2.1) := by
  unfold execute_command
  split
  · exact ⟨rfl, fun h => by simp at h⟩
  · split
    · exact ⟨rfl, fun h => by simp at h⟩
    · exact ⟨rfl, fun _ => rfl⟩

theorem check_wifi_connected_trace (w : World) (t : List Event) :
    (check_wifi_connected w t).2
      = t ++ [Event.popen "nmcli -t -f GENERAL.STATE device show wlan0".toList] :=
  execute_command_trace w t _ _

theorem wait_connected_success (w : World) :
    ∀ (n k : Nat) (t : List Event), k < n →
      (∀ i, i < k → (check_wifi_connected w (t ++ polls i)).1 = false) →
      (check_wifi_connected w (t ++ polls k)).1 = true →
      wait_connected w n t
        = (0, t ++ polls k
            ++ [Event.popen "nmcli -t -f GENERAL.STATE device show wlan0".toList]) := by
  intro n
  induction n with
  | zero => intro k t hk; omega
  | succ n ih =>
    intro k t hk hfalse htrue
    unfold wait_connected
    dsimp only
    cases k with
    | zero =>
      have h0 : (check_wifi_connected w t).1 = true := by simpa [polls] using htrue
      rw [if_pos h0, check_wifi_connected_trace]
      simp [polls]
    | succ k =>
      have h0 : (check_wifi_connected w t).1 = false := by
        simpa [polls] using hfalse 0 (Nat.succ_pos k)
      rw [if_neg (by rw [h0]; decide), check_wifi_connected_trace]
      rw [ih k _ (by omega)
        (fun i hi => by simpa [polls] using hfalse (i + 1) (by omega))
        (by simpa [polls] using htrue)]
      simp [polls]

theorem wait_connected_timeout (w : World) :
    ∀ (n : Nat) (t : List Event),
      (∀ i, i < n → (check_wifi_connected w (t ++ polls i)).1 = false) →
      wait_connected w n t = (-2, t ++ polls n) := by
  intro n
  induction n with
  | zero => intro t _; simp [wait_connected, polls]
  | succ n ih =>
    intro t hfalse
    unfold wait_connected
    dsimp only
    have h0 : (check_wifi_connected w t).1 = false := by
      simpa [polls] using hfalse 0 (Nat.succ_pos n)
    rw [if_neg (by rw [h0]; decide), check_wifi_connected_trace]
    rw [ih _ (fun i hi => by simpa [polls] using hfalse (i + 1) (by omega))]
    simp [polls]

theorem configure_connect_cases (w : World) (t : List Event) (ssid password : List Char) :
    (connect_accepted w t ssid password = false →
      configure_connect w t ssid password
        = (-1, t ++ [Event.popen (connect_command ssid password)]))
    ∧ (connect_accepted w t ssid password = true →
      configure_connect w t ssid password
        = wait_connected w 20 (t ++ [Event.popen (connect_command ssid password)])) := by
  unfold connect_accepted configure_connect
  dsimp only
  constructor
  · intro h
    have h' : (execute_command w t (connect_command ssid password) [] MAX_RESPONSE_LEN).1 ≠ 0 := by
      simpa using h
    rw [if_pos h', execute_command_trace]
  · intro h
    have h' : (execute_command w t (connect_command ssid password) [] MAX_RESPONSE_LEN).1 = 0 := by
      simpa using h
    rw [if_neg (by simp [h']), execute_command_trace]

theorem configure_profile_cases (w : World) (t : List Event)
    (ssid password response : List Char) :
    (profile_saved w t ssid = false →
      configure_profile w t ssid password response
        = configure_connect w (t ++ [Event.popen (profile_lookup_command ssid)])
            ssid password)
    ∧ (profile_saved w t ssid = true →
        profile_deleted w (t ++ [Event.popen (profile_lookup_command ssid)]) ssid = true →
      configure_profile w t ssid password response
        = configure_connect w (t ++ [Event.popen (profile_lookup_command ssid),
            Event.popen (profile_delete_command ssid)]) ssid password)
    ∧ (profile_saved w t ssid = true →
        profile_deleted w (t ++ [Event.popen (profile_lookup_command ssid)]) ssid = false →
      configure_profile w t ssid password response
        = (-1, t ++ [Event.popen (profile_lookup_command ssid),
            Event.popen (profile_delete_command ssid)])) := by
  have hi := execute_command_output_irrelevant w t (profile_lookup_command ssid) response
    MAX_RESPONSE_LEN
  have hcond : ((execute_command w t (profile_lookup_command ssid) response
        MAX_RESPONSE_LEN).1 = 0
      ∧ (execute_command w t (profile_lookup_command ssid) response
        MAX_RESPONSE_LEN).2.1.length > 0) ↔ profile_saved w t ssid = true := by
    unfold profile_saved
    simp only [Bool.and_eq_true, decide_eq_true_eq]
    constructor
    · rintro ⟨h1, h2⟩
      exact ⟨hi.1 ▸ h1, (hi.2 h1) ▸ h2⟩
    · rintro ⟨h1, h2⟩
      have h1' := hi.1.trans h1
      exact ⟨h1', (hi.2 h1').symm ▸ h2⟩
  have hd : ∀ o, (execute_command w (t ++ [Event.popen (profile_lookup_command ssid)])
      (profile_delete_command ssid) o MAX_RESPONSE_LEN).1 = 0
      ↔ profile_deleted w (t ++ [Event.popen (profile_lookup_command ssid)]) ssid = true := by
    intro o
    unfold profile_deleted
    rw [(execute_command_output_irrelevant w _ (profile_delete_command ssid) o
      MAX_RESPONSE_LEN).1]
    simp
  unfold configure_profile
  dsimp only
  refine ⟨fun h => ?_, fun h h2 => ?_, fun h h2 => ?_⟩
  · rw [if_neg (by rw [hcond, h]; decide), execute_command_trace]
  · rw [if_pos (hcond.mpr h), execute_command_trace, execute_command_trace,
      if_neg (by rw [ne_eq, hd, h2]; decide)]
    simp
  · rw [if_pos (hcond.mpr h), execute_command_trace, execute_command_trace,
      if_pos (by rw [ne_eq, hd, h2]; decide)]
    simp

theorem wifi_manager_configure_not_associated (w : World) (tr : List Event)
    (ssid password : List Char) (hne : ssid ≠ [])
    (hnot : already_associated w (tr ++ [Event.wifi_manager_configure ssid password]) ssid
      = false) :
    ∃ response, wifi_manager_configure w tr ssid password
      = configure_profile w (tr ++ [Event.wifi_manager_configure ssid password,
          Event.popen active_ssid_command]) ssid password response := by
  have hlen : ¬ ssid.length = 0 := fun h => hne (List.length_eq_zero.mp h)
  unfold already_associated at hnot
  simp only [Bool.and_eq_false_iff, decide_eq_false_iff_not] at hnot
  unfold wifi_manager_configure
  dsimp only
  rw [if_neg hlen, execute_command_trace]
  split
  · rename_i h0
    rw [if_neg (by
      rcases hnot with h | h
      · exact absurd h0 h
      · exact h)]
    exact ⟨_, by rw [List.append_assoc]; rfl⟩
  · exact ⟨_, by rw [List.append_assoc]; rfl⟩

/-- C16: for a non-empty `ssid` that is not the active connection, with `tc` the
trace at which the connect request is issued (after the lookup when no profile
is saved, after the deletion when one is saved and deleted).  When the connect
request does not exit with 0, the call returns -1 right after it, without a
poll.  When it exits with 0, the state is polled: if poll number `k < 20`
(counting from 0) is the first to find the interface connected, the call
returns 0 right after it, `k + 1` polls in all; if none of 20 polls does, the
call returns -2 after exactly 20 polls.  The two failure codes differ. -/
theorem configure_poll_bound (w : World) (tr tc : List Event) (ssid password : List Char)
    (hne : ssid ≠ [])
    (hnot : already_associated w (tr ++ [Event.wifi_manager_configure ssid password]) ssid
      = false)
    (hreach :
      (profile_saved w (tr ++ [Event.wifi_manager_configure ssid password,
          Event.popen active_ssid_command]) ssid = false
        ∧ tc = tr ++ [Event.wifi_manager_configure ssid password,
            Event.popen active_ssid_command, Event.popen (profile_lookup_command ssid)])
      ∨ (profile_saved w (tr ++ [Event.wifi_manager_configure ssid password,
          Event.popen active_ssid_command]) ssid = true
        ∧ profile_deleted w (tr ++ [Event.wifi_manager_configure ssid password,
            Event.popen active_ssid_command, Event.popen (profile_lookup_command ssid)]) ssid
          = true
        ∧ tc = tr ++ [Event.wifi_manager_configure ssid password,
            Event.popen active_ssid_command, Event.popen (profile_lookup_command ssid),
            Event.popen (profile_delete_command ssid)])) :
    (connect_accepted w tc ssid password = false →
      wifi_manager_configure w tr ssid password
        = (-1, tc ++ [Event.popen (connect_command ssid password)]))
    ∧ (connect_accepted w tc ssid password = true →
      (∀ k, k < 20 →
        (∀ i, i < k → (check_wifi_connected w
          (tc ++ [Event.popen (connect_command ssid password)] ++ polls i)).1 = false) →
        (check_wifi_connected w
          (tc ++ [Event.popen (connect_command ssid password)] ++ polls k)).1 = true →
        wifi_manager_configure w tr ssid password
          = (0, tc ++ [Event.popen (connect_command ssid password)] ++ polls k
              ++ [Event.popen "nmcli -t -f GENERAL.STATE device show wlan0".toList]))
      ∧ ((∀ i, i < 20 → (check_wifi_connected w
          (tc ++ [Event.popen (connect_command ssid password)] ++ polls i)).1 = false) →
        wifi_manager_configure w tr ssid password
          = (-2, tc ++ [Event.popen (connect_command ssid password)] ++ polls 20)))
    ∧ (-2 : Int) ≠ -1 := by
  obtain ⟨response, hcfg⟩ := wifi_manager_configure_not_associated w tr ssid password hne hnot
  have hp := configure_profile_cases w (tr ++ [Event.wifi_manager_configure ssid password,
    Event.popen active_ssid_command]) ssid password response
  have heq : wifi_manager_configure w tr ssid password
      = configure_connect w tc ssid password := by
    rcases hreach with ⟨hs, htc⟩ | ⟨hs, hd, htc⟩
    · rw [hcfg, hp.1 hs, htc, List.append_assoc]
      rfl
    · rw [List.append_assoc] at hp
      rw [hcfg, hp.2.1 hs hd, htc, List.append_assoc]
      rfl
  have hc := configure_connect_cases w tc ssid password
  refine ⟨fun h => by rw [heq, hc.1 h], fun h => ⟨fun k hk hfalse htrue => ?_, fun hfalse => ?_⟩,
    by decide⟩
  · rw [heq, hc.2 h]
    exact wait_connected_success w 20 k _ hk hfalse htrue
  · rw [heq, hc.2 h]
    exact wait_connected_timeout w 20 _ hfalse

/-- A use of `configure_poll_bound`: in a world where the connect request
succeeds at once, the first poll finds the interface connected. -/
theorem configure_poll_bound_witness :
    wifi_manager_configure World.joining [] "HomeNet".toList "secret".toList
      = (0, [] ++ [Event.wifi_manager_configure "HomeNet".toList "secret".toList,
            Event.popen active_ssid_command,
            Event.popen (profile_lookup_command "HomeNet".toList)]
          ++ [Event.popen (connect_command "HomeNet".toList "secret".toList)] ++ polls 0
          ++ [Event.popen "nmcli -t -f GENERAL.STATE device show wlan0".toList]) :=
  ((configure_poll_bound World.joining [] _ "HomeNet".toList "secret".toList
    (by decide) (by decide) (Or.inl ⟨by decide, rfl⟩)).2.1 (by decide)).1 0 (by decide)
    (fun i hi => absurd hi (Nat.not_lt_zero i)) (by decide)

theorem wait_connected_events (w : World) :
    ∀ (n : Nat) (t : List Event), ∃ rest, (wait_connected w n t).2 = t ++ rest
      ∧ ∀ e ∈ rest,
          e = Event.popen "nmcli -t -f GENERAL.STATE device show wlan0".toList
            ∨ e = Event.sleep 1 := by
  intro n
  induction n with
  | zero => intro t; exact ⟨[], by simp [wait_connected], by simp⟩
  | succ n ih =>
    intro t
    unfold wait_connected
    dsimp only
    rw [check_wifi_connected_trace]
    split
    · exact ⟨[_], rfl, by simp⟩
    · obtain ⟨rest, hrest, hall⟩ := ih (t
        ++ [Event.popen "nmcli -t -f GENERAL.STATE device show wlan0".toList]
        ++ [Event.sleep 1])
      refine ⟨Event.popen "nmcli -t -f GENERAL.STATE device show wlan0".toList
        :: Event.sleep 1 :: rest, by rw [hrest]; simp, ?_⟩
      intro e he
      simp only [List.mem_cons] at he
      rcases he with h | h | h
      · exact Or.inl h
      · exact Or.inr h
      · exact hall e h

theorem configure_connect_events (w : World) (t : List Event) (ssid password : List Char) :
    ∃ rest, (configure_connect w t ssid password).2
        = t ++ Event.popen (connect_command ssid password) :: rest
      ∧ ∀ e ∈ rest,
          e = Event.popen "nmcli -t -f GENERAL.STATE device show wlan0".toList
            ∨ e = Event.sleep 1 := by
  have hc := configure_connect_cases w t ssid password
  cases h : connect_accepted w t ssid password with
  | false => exact ⟨[], by rw [hc.1 h], by simp⟩
  | true =>
    obtain ⟨rest, hrest, hall⟩ := wait_connected_events w 20
      (t ++ [Event.popen (connect_command ssid password)])
    exact ⟨rest, by rw [hc.2 h, hrest]; simp, hall⟩

theorem snprintf_head (p x : List Char) (h : 7 ≤ p.length) :
    (snprintf MAX_COMMAND_LEN (p ++ x)).take 7 = p.take 7 := by
  unfold snprintf MAX_COMMAND_LEN
  rw [List.take_take, List.take_append_of_le_length (by omega)]
  congr 1

theorem delete_command_distinct (ssid password : List Char) :
    profile_delete_command ssid ≠ active_ssid_command
      ∧ profile_delete_command ssid ≠ profile_lookup_command ssid
      ∧ profile_delete_command ssid ≠ connect_command ssid password
      ∧ profile_delete_command ssid
          ≠ "nmcli -t -f GENERAL.STATE device show wlan0".toList := by
  have hd : (profile_delete_command ssid).take 7 = "nmcli c".toList := by
    unfold profile_delete_command
    rw [List.append_assoc, snprintf_head _ _ (by decide)]
    decide
  refine ⟨fun h => ?_, fun h => ?_, fun h => ?_, fun h => ?_⟩
  · rw [h] at hd
    exact absurd hd (by decide)
  · rw [h] at hd
    unfold profile_lookup_command at hd
    rw [List.append_assoc, snprintf_head _ _ (by decide)] at hd
    exact absurd hd (by decide)
  · rw [h] at hd
    unfold connect_command at hd
    split at hd
    · rw [List.append_assoc, List.append_assoc, List.append_assoc,
        snprintf_head _ _ (by decide)] at hd
      exact absurd hd (by decide)
    · rw [List.append_assoc, snprintf_head _ _ (by decide)] at hd
      exact absurd hd (by decide)
  · rw [h] at hd
    exact absurd hd (by decide)

/-- C17, as amended: for a non-empty `ssid` that is not the active connection.
When no profile is saved, the commands issued after the lookup are the connect
request and then state polls only; the delete command is not among them.  When
a profile is saved, the delete is issued right after the lookup; if it exits
with 0 the connect request follows it directly, and if it does not the call
returns -1 with no connect request.  When `ssid` and `password` fit the
command buffer, the connect request has a password clause exactly when the
password is non-empty. -/
theorem configure_command_sequence (w : World) (tr : List Event) (ssid password : List Char)
    (hne : ssid ≠ [])
    (hnot : already_associated w (tr ++ [Event.wifi_manager_configure ssid password]) ssid
      = false) :
    (profile_saved w (tr ++ [Event.wifi_manager_configure ssid password,
        Event.popen active_ssid_command]) ssid = false →
      ∃ rest, (wifi_manager_configure w tr ssid password).2
          = tr ++ [Event.wifi_manager_configure ssid password,
              Event.popen active_ssid_command, Event.popen (profile_lookup_command ssid),
              Event.popen (connect_command ssid password)] ++ rest
        ∧ (∀ e ∈ rest,
            e = Event.popen "nmcli -t -f GENERAL.STATE device show wlan0".toList
              ∨ e = Event.sleep 1)
        ∧ Event.popen (profile_delete_command ssid)
            ∉ [Event.wifi_manager_configure ssid password,
                Event.popen active_ssid_command, Event.popen (profile_lookup_command ssid),
                Event.popen (connect_command ssid password)] ++ rest)
    ∧ (profile_saved w (tr ++ [Event.wifi_manager_configure ssid password,
        Event.popen active_ssid_command]) ssid = true →
      (profile_deleted w (tr ++ [Event.wifi_manager_configure ssid password,
          Event.popen active_ssid_command, Event.popen (profile_lookup_command ssid)]) ssid
          = true →
        ∃ rest, (wifi_manager_configure w tr ssid password).2
          = tr ++ [Event.wifi_manager_configure ssid password,
              Event.popen active_ssid_command, Event.popen (profile_lookup_command ssid),
              Event.popen (profile_delete_command ssid),
              Event.popen (connect_command ssid password)] ++ rest)
      ∧ (profile_deleted w (tr ++ [Event.wifi_manager_configure ssid password,
          Event.popen active_ssid_command, Event.popen (profile_lookup_command ssid)]) ssid
          = false →
        wifi_manager_configure w tr ssid password
          = (-1, tr ++ [Event.wifi_manager_configure ssid password,
              Event.popen active_ssid_command, Event.popen (profile_lookup_command ssid),
              Event.popen (profile_delete_command ssid)])))
    ∧ (ssid.length + password.length ≤ 471 →
      connect_command ssid password
        = if password = [] then "nmcli device wifi connect '".toList ++ ssid ++ "'".toList
          else "nmcli device wifi connect '".toList ++ ssid ++ "' password '".toList
            ++ password ++ "'".toList) := by
  obtain ⟨response, hcfg⟩ := wifi_manager_configure_not_associated w tr ssid password hne hnot
  have hp := configure_profile_cases w (tr ++ [Event.wifi_manager_configure ssid password,
    Event.popen active_ssid_command]) ssid password response
  have hdist := delete_command_distinct ssid password
  have happ : tr ++ [Event.wifi_manager_configure ssid password,
        Event.popen active_ssid_command] ++ [Event.popen (profile_lookup_command ssid)]
      = tr ++ [Event.wifi_manager_configure ssid password,
        Event.popen active_ssid_command, Event.popen (profile_lookup_command ssid)] := by
    simp
  rw [happ] at hp
  refine ⟨fun hs => ?_, fun hs => ⟨fun hd => ?_, fun hd => ?_⟩, fun hfit => ?_⟩
  · obtain ⟨rest, hrest, hall⟩ := configure_connect_events w
      (tr ++ [Event.wifi_manager_configure ssid password,
        Event.popen active_ssid_command, Event.popen (profile_lookup_command ssid)])
      ssid password
    refine ⟨rest, by rw [hcfg, hp.1 hs, hrest]; simp, hall, ?_⟩
    intro hmem
    simp only [List.cons_append, List.nil_append, List.mem_cons, Event.popen.injEq,
      reduceCtorEq, false_or] at hmem
    rcases hmem with h | h | h | h
    · exact hdist.1 h
    · exact hdist.2.1 h
    · exact hdist.2.2.1 h
    · rcases hall _ h with h' | h'
      · exact hdist.2.2.2 (Event.popen.inj h')
      · cases h'
  · obtain ⟨rest, hrest, _⟩ := configure_connect_events w
      (tr ++ [Event.wifi_manager_configure ssid password,
        Event.popen active_ssid_command] ++ [Event.popen (profile_lookup_command ssid),
        Event.popen (profile_delete_command ssid)]) ssid password
    exact ⟨rest, by rw [hcfg, hp.2.1 hs hd, hrest]; simp⟩
  · rw [hcfg, hp.2.2 hs hd]
    simp
  · unfold connect_command snprintf MAX_COMMAND_LEN
    have e1 : "nmcli device wifi connect '".toList.length = 27 := by decide
    have e2 : "' password '".toList.length = 12 := by decide
    have e3 : "'".toList.length = 1 := by decide
    by_cases hpw : password = []
    · rw [if_neg (by simp [hpw]), if_pos hpw]
      apply List.take_of_length_le
      simp only [List.length_append, e1, e3]
      omega
    · rw [if_pos (List.length_pos.mpr hpw), if_neg hpw]
      apply List.take_of_length_le
      simp only [List.length_append, e1, e2, e3]
      omega

/-- A use of `configure_command_sequence`: a saved profile whose deletion is
refused. -/
theorem configure_command_sequence_witness :
    wifi_manager_configure World.stale_profile [] "Office".toList "secret".toList
      = (-1, [] ++ [Event.wifi_manager_configure "Office".toList "secret".toList,
          Event.popen active_ssid_command,
          Event.popen (profile_lookup_command "Office".toList),
          Event.popen (profile_delete_command "Office".toList)]) :=
  ((configure_command_sequence World.stale_profile [] "Office".toList "secret".toList
    (by decide) (by decide)).2.1 (by decide)).2 (by decide)

set_option maxRecDepth 100000 in
/-- C17 as stated fails on two inputs.  With a saved profile whose deletion is
refused, the delete is issued and the call returns -1 without any connect
request.  With an ssid of 500 bytes and the password `pw`, the connect request
is cut to 511 bytes and has no password clause. -/
theorem configure_delete_refused_no_connect :
    profile_saved World.stale_profile
        [Event.wifi_manager_configure "Office".toList "secret".toList,
          Event.popen active_ssid_command] "Office".toList = true
      ∧ wifi_manager_configure World.stale_profile [] "Office".toList "secret".toList
        = (-1, [Event.wifi_manager_configure "Office".toList "secret".toList,
            Event.popen active_ssid_command,
            Event.popen (profile_lookup_command "Office".toList),
            Event.popen (profile_delete_command "Office".toList)])
      ∧ connect_command (List.replicate 500 'a') "pw".toList
        = "nmcli device wifi connect '".toList ++ List.replicate 484 'a' := by
  refine ⟨by decide, by decide, by decide⟩

/-! ## The ack of a connect request -/

theorem get_ip_address_at (w : World) (t : List Event) (buf : List Char) :
    (get_ip_address w t WIFI_INTERFACE buf 16).2.2 = t ++ [Event.ioctl_addr WIFI_INTERFACE]
      ∧ (w.inet_ntoa t WIFI_INTERFACE = none →
          (get_ip_address w t WIFI_INTERFACE buf 16).1 = false
            ∧ (get_ip_address w t WIFI_INTERFACE buf 16).2.1 = buf) := by
  have hname : WIFI_INTERFACE.take (IFNAMSIZ - 1) = WIFI_INTERFACE := by decide
  unfold get_ip_address
  rw [if_neg (by decide)]
  dsimp only
  rw [hname]
  cases h : w.inet_ntoa t WIFI_INTERFACE with
  | none => exact ⟨rfl, fun _ => ⟨rfl, rfl⟩⟩
  | some a => exact ⟨rfl, fun h' => by cases h'⟩

theorem get_mac_address_at (w : World) (t : List Event) (buf : List Char) :
    (get_mac_address w t WIFI_INTERFACE buf 18).2.2
        = t ++ [Event.ioctl_hwaddr WIFI_INTERFACE]
      ∧ (w.hwaddr t WIFI_INTERFACE = none →
          (get_mac_address w t WIFI_INTERFACE buf 18).1 = false
            ∧ (get_mac_address w t WIFI_INTERFACE buf 18).2.1 = buf) := by
  have hname : WIFI_INTERFACE.take (IFNAMSIZ - 1) = WIFI_INTERFACE := by decide
  unfold get_mac_address
  rw [if_neg (by decide)]
  dsimp only
  rw [hname]
  cases h : w.hwaddr t WIFI_INTERFACE with
  | none => exact ⟨rfl, fun _ => ⟨rfl, rfl⟩⟩
  | some d => exact ⟨rfl, fun h' => by cases h'⟩

/-- C8, as amended: for a non-null pointer `wifi_manager_get_status` returns 0
whatever the world answers, and fills the structure.  When the state query
finds the interface not connected, nothing else is asked, `connected` is
false, `ssid`, `ip_address` and `mac_address` read as the empty string and
`error_message` as `Not connected to any WiFi network`.  When it finds the
interface connected, the SSID query and the two address lookups follow,
`connected` is true, and `ip_address` and `mac_address` each read `Unknown` if
the lookup of that address, at the trace where it is made, fails. -/
theorem get_status_never_fails (w : World) (tr : List Event) (status : wifi_status_t) :
    (wifi_manager_get_status w tr (some status)).1 = 0
      ∧ ((check_wifi_connected w (tr ++ [Event.wifi_manager_get_status])).1 = false →
          ∃ s, (wifi_manager_get_status w tr (some status)).2
              = (some s, tr ++ [Event.wifi_manager_get_status,
                  Event.popen "nmcli -t -f GENERAL.STATE device show wlan0".toList])
            ∧ s.connected = false
            ∧ cstr s.ssid = [] ∧ cstr s.ip_address = [] ∧ cstr s.mac_address = []
            ∧ cstr s.error_message = "Not connected to any WiFi network".toList)
      ∧ ((check_wifi_connected w (tr ++ [Event.wifi_manager_get_status])).1 = true →
          ∃ s, (wifi_manager_get_status w tr (some status)).2
              = (some s, tr ++ [Event.wifi_manager_get_status,
                  Event.popen "nmcli -t -f GENERAL.STATE device show wlan0".toList,
                  Event.popen
                    "nmcli -t -f active,ssid dev wifi | grep '^yes:' | cut -d ':' -f 2".toList,
                  Event.ioctl_addr WIFI_INTERFACE, Event.ioctl_hwaddr WIFI_INTERFACE])
            ∧ s.connected = true
            ∧ (w.inet_ntoa (tr ++ [Event.wifi_manager_get_status,
                  Event.popen "nmcli -t -f GENERAL.STATE device show wlan0".toList,
                  Event.popen
                    "nmcli -t -f active,ssid dev wifi | grep '^yes:' | cut -d ':' -f 2".toList])
                WIFI_INTERFACE = none →
              cstr s.ip_address = "Unknown".toList)
            ∧ (w.hwaddr (tr ++ [Event.wifi_manager_get_status,
                  Event.popen "nmcli -t -f GENERAL.STATE device show wlan0".toList,
                  Event.popen
                    "nmcli -t -f active,ssid dev wifi | grep '^yes:' | cut -d ':' -f 2".toList,
                  Event.ioctl_addr WIFI_INTERFACE])
                WIFI_INTERFACE = none →
              cstr s.mac_address = "Unknown".toList)) := by
  have hcmd : snprintf MAX_COMMAND_LEN
      "nmcli -t -f active,ssid dev wifi | grep '^yes:' | cut -d ':' -f 2".toList
      = "nmcli -t -f active,ssid dev wifi | grep '^yes:' | cut -d ':' -f 2".toList := by
    decide
  have hz2 : wifi_status_t.zero.ip_address = zeroed 16 := rfl
  have hz3 : wifi_status_t.zero.mac_address = zeroed 18 := rfl
  unfold wifi_manager_get_status
  dsimp only
  rw [hcmd, hz2, hz3, check_wifi_connected_trace]
  cases hc : (check_wifi_connected w (tr ++ [Event.wifi_manager_get_status])).1 with
  | false =>
    rw [if_neg Bool.false_ne_true]
    refine ⟨rfl, fun _ => ⟨_, Prod.ext rfl ?_, rfl, by decide, by decide, by decide,
      by decide⟩, fun h => absurd h (by decide)⟩
    simp
  | true =>
    rw [if_pos rfl]
    have hip := get_ip_address_at w
    have hmac := get_mac_address_at w
    refine ⟨rfl, fun h => absurd h (by decide),
      fun _ => ⟨_, Prod.ext rfl ?_, rfl, fun hfail => ?_, fun hfail => ?_⟩⟩
    · dsimp only
      rw [(hmac _ _).1, (hip _ _).1, execute_command_trace]
      simp
    · dsimp only
      have ht : (execute_command w
          (tr ++ [Event.wifi_manager_get_status]
            ++ [Event.popen "nmcli -t -f GENERAL.STATE device show wlan0".toList])
          "nmcli -t -f active,ssid dev wifi | grep '^yes:' | cut -d ':' -f 2".toList []
          MAX_RESPONSE_LEN).2.2
          = tr ++ [Event.wifi_manager_get_status,
              Event.popen "nmcli -t -f GENERAL.STATE device show wlan0".toList,
              Event.popen
                "nmcli -t -f active,ssid dev wifi | grep '^yes:' | cut -d ':' -f 2".toList] := by
        rw [execute_command_trace]; simp
      rw [ht]
      have h1 := ((hip _ (zeroed 16)).2 hfail)
      rw [if_neg (by rw [h1.1]; decide), h1.2]
      decide
    · dsimp only
      have ht : (get_ip_address w (execute_command w
          (tr ++ [Event.wifi_manager_get_status]
            ++ [Event.popen "nmcli -t -f GENERAL.STATE device show wlan0".toList])
          "nmcli -t -f active,ssid dev wifi | grep '^yes:' | cut -d ':' -f 2".toList []
          MAX_RESPONSE_LEN).2.2 WIFI_INTERFACE (zeroed 16) 16).2.2
          = tr ++ [Event.wifi_manager_get_status,
              Event.popen "nmcli -t -f GENERAL.STATE device show wlan0".toList,
              Event.popen
                "nmcli -t -f active,ssid dev wifi | grep '^yes:' | cut -d ':' -f 2".toList,
              Event.ioctl_addr WIFI_INTERFACE] := by
        rw [(hip _ _).1, execute_command_trace]; simp
      rw [ht]
      have h1 := ((hmac _ (zeroed 18)).2 hfail)
      rw [if_neg (by rw [h1.1]; decide), h1.2]
      decide

/-- A use of `get_status_never_fails`: a connected interface whose two address
lookups fail. -/
theorem get_status_never_fails_witness :
    ∃ s, (wifi_manager_get_status (World.printing "GENERAL.STATE:100 (connected)\n".toList) []
          (some wifi_status_t.zero)).2.1 = some s
      ∧ s.connected = true ∧ cstr s.ip_address = "Unknown".toList
      ∧ cstr s.mac_address = "Unknown".toList :=
  have h := (get_status_never_fails (World.printing "GENERAL.STATE:100 (connected)\n".toList) []
    wifi_status_t.zero).2.2 (by decide)
  h.elim fun s hs => ⟨s, by rw [hs.1], hs.2.1, hs.2.2.1 rfl, hs.2.2.2 rfl⟩

end LinuxBoxFinder
